import Mathlib

/-!
Verification development for the network-ts-sdk client library.

The definitions below are shallow embeddings of the SDK's resilient
transport layer (`src/core/http.ts`), the retry policy and path-based
auth strategy (`src/core/interfaces` implementations), the WebSocket
client (`src/core/ws.ts`) and the pub/sub subscription pipeline
(`src/pubsub/client.ts`, the presence-aware snapshot).  JavaScript
numbers are modelled as `Nat`/`Int`, JS strings as `String`, fallible
operations as `Option`/`Except`, and the network as an explicit list of
fetch outcomes consumed in order.
-/

deriving instance DecidableEq for Except

namespace NetworkSDK

/-- Substring test, modelling JavaScript `String.prototype.includes`. -/
def strContainsSub (s sub : String) : Bool :=
  s.toList.tails.any (fun t => sub.toList.isPrefixOf t)

/-- JS truthiness of an optional string credential or field
(`undefined` and the empty string are falsy). -/
def credTruthy : Option String → Bool
  | some s => s != ""
  | none => false

/-- Value of an optional string, used only where truthiness was checked. -/
def credVal : Option String → String
  | some s => s
  | none => ""

/-- Error-payload body of a non-2xx HTTP response, modelling the JSON
shape `{ error?: string, code?: string }` (src/errors.ts
`SDKError.fromResponse` reads exactly these two fields). -/
structure ErrBody where
  error : Option String
  code  : Option String
deriving Repr, DecidableEq

/-- The `SDKError` class of src/errors.ts: message, numeric HTTP status,
string code, and the details bag (the response body). -/
structure SDKError where
  message    : String
  httpStatus : Nat
  code       : String
  details    : ErrBody
deriving Repr, DecidableEq

/-- JS `||` fallback on an optional string field (empty string is falsy),
as used by `SDKError.fromResponse` for `body?.error` and `body?.code`. -/
def jsStrOr (v : Option String) (d : String) : String :=
  match v with
  | some s => if s.isEmpty then d else s
  | none => d

/-- `SDKError.fromResponse(status, body)` from src/errors.ts:
message falls back to `HTTP <status>`, code to `HTTP_<status>`,
details is the body itself. -/
def SDKError.fromResponse (status : Nat) (body : ErrBody) : SDKError :=
  { message := jsStrOr body.error ("HTTP " ++ toString status)
    httpStatus := status
    code := jsStrOr body.code ("HTTP_" ++ toString status)
    details := body }

/-- An error value thrown inside the transport: either a typed `SDKError`
or a native error (TypeError from fetch, DOMException from an abort, ...)
characterised by whether it is a `TypeError` and by its message. -/
inductive JsError where
  | sdk (e : SDKError)
  | native (isTypeError : Bool) (message : String)
deriving Repr, DecidableEq

/-- Whether a thrown value is a typed `SDKError` instance. -/
def JsError.isSDK : JsError → Bool
  | .sdk _ => true
  | .native _ _ => false

/-- The retryable HTTP status set of `HttpClient.requestWithRetry`
(src/core/http.ts line 394) and of `ExponentialBackoffRetryPolicy`. -/
def retryableStatuses : List Nat := [408, 429, 500, 502, 503, 504]

/-- `isRetryableError` from src/core/http.ts lines 392-394:
`error instanceof SDKError && [..].includes(error.httpStatus)`. -/
def isRetryableError : JsError → Bool
  | .sdk e => retryableStatuses.contains e.httpStatus
  | .native _ _ => false

/-- `isNetworkError` from src/core/http.ts lines 396-398:
`error instanceof TypeError || (error instanceof Error &&
error.message.includes('fetch'))`.  Note that an `SDKError` is an
`Error`, so a typed HTTP error whose message contains "fetch" is
classified as a network error as well. -/
def isNetworkError : JsError → Bool
  | .sdk e => strContainsSub e.message "fetch"
  | .native isTypeError m => isTypeError || strContainsSub m "fetch"

/-- `ExponentialBackoffRetryPolicy.shouldRetry` (core/retry policy file):
false once `attempt >= maxRetries`, else status-based for `SDKError`s,
false for any other error. -/
def shouldRetry (maxRetries : Nat) (e : JsError) (attempt : Nat) : Bool :=
  if attempt ≥ maxRetries then false
  else match e with
    | .sdk s => retryableStatuses.contains s.httpStatus
    | .native _ _ => false

/-- `ExponentialBackoffRetryPolicy.getDelay`: `baseDelayMs * (attempt + 1)`. -/
def getDelay (baseDelayMs attempt : Nat) : Nat := baseDelayMs * (attempt + 1)

/-! ## Gateway health (src/core/http.ts) -/

/-- The `gatewayHealth` map: each base URL paired with its
`unhealthyUntil` timestamp (`null` = healthy). -/
abbrev HMap := List (String × Option Nat)

/-- Constructor initialisation of the gateway health map:
every configured base URL starts healthy (`unhealthyUntil: null`). -/
def initGatewayHealth (urls : List String) : HMap :=
  urls.map (fun u => (u, none))

/-- `Map.get`: first entry with the given key. -/
def hmLookup (m : HMap) (url : String) : Option (Option Nat) :=
  match m with
  | [] => none
  | (k, v) :: rest => if k = url then some v else hmLookup rest url

/-- Update the `unhealthyUntil` field of an existing map entry
(JS mutates the entry object in place; keys never change). -/
def setHealth (m : HMap) (url : String) (v : Option Nat) : HMap :=
  m.map (fun p => if p.1 = url then (p.1, v) else p)

/-- The pure health predicate: healthy iff no entry, a `null`
`unhealthyUntil`, or a deadline that has passed. -/
def healthyAtPure (now : Nat) (m : HMap) (url : String) : Bool :=
  match hmLookup m url with
  | none => true
  | some none => true
  | some (some t) => now ≥ t

/-- `HttpClient.isGatewayHealthy` (src/core/http.ts lines 158-170):
returns the health flag and self-heals an expired cooldown by resetting
`unhealthyUntil` to `null`. -/
def isGatewayHealthy (now : Nat) (m : HMap) (url : String) : Bool × HMap :=
  match hmLookup m url with
  | none => (true, m)
  | some none => (true, m)
  | some (some t) =>
      if now ≥ t then (true, setHealth m url none) else (false, m)

/-- Configuration of the HTTP client relevant to retry/failover. -/
structure HttpConfig where
  baseURLs : List String
  maxRetries : Nat
  retryDelayMs : Nat
  gatewayHealthCheckCooldownMs : Nat
deriving Repr, DecidableEq

/-- `HttpClient.markGatewayUnhealthy` (lines 175-186): sets
`unhealthyUntil = Date.now() + cooldown` if the entry exists. -/
def markGatewayUnhealthy (cfg : HttpConfig) (now : Nat) (m : HMap) (url : String) : HMap :=
  match hmLookup m url with
  | some _ => setHealth m url (some (now + cfg.gatewayHealthCheckCooldownMs))
  | none => m

/-- The scan loop of `findNextHealthyGateway` (lines 196-210): try each
gateway after the current index, round robin, skipping unhealthy ones.
`fuel` bounds the loop; `baseURLs.length` steps always suffice. -/
def findNextAux (urls : List String) (now startIndex : Nat) :
    HMap → Nat → Nat → Option Nat × HMap
  | m, _, 0 => (none, m)
  | m, attempts, fuel + 1 =>
    if attempts < urls.length - 1 then
      let nextIndex := (startIndex + attempts + 1) % urls.length
      let nextUrl := urls.getD nextIndex ""
      let hm := isGatewayHealthy now m nextUrl
      if hm.1 then (some nextIndex, hm.2)
      else findNextAux urls now startIndex hm.2 (attempts + 1) fuel
    else (none, m)

/-- `HttpClient.findNextHealthyGateway` (lines 192-213): `-1` (here
`none`) when at most one gateway is configured or none is healthy. -/
def findNextHealthyGateway (urls : List String) (now : Nat) (startIndex : Nat)
    (m : HMap) : Option Nat × HMap :=
  if urls.length ≤ 1 then (none, m)
  else findNextAux urls now startIndex m 0 urls.length

/-! ## The retry/failover engine (`HttpClient.requestWithRetry`) -/

/-- A resolved HTTP response as seen by `requestWithRetry`: status,
status text, the JSON body if it parses, and the success payload. -/
structure HttpResponse where
  status : Nat
  statusText : String
  jsonBody : Option ErrBody
  textBody : String
deriving Repr, DecidableEq

/-- One observation of the network: fetch resolves with a response or
rejects with an error.  A run of `requestWithRetry` consumes these in
order, one per fetch call. -/
inductive FetchOutcome where
  | resolved (r : HttpResponse)
  | rejected (e : JsError)
deriving Repr, DecidableEq

/-- `response.ok`: status in the 2xx range. -/
def responseOk (status : Nat) : Bool := 200 ≤ status && status ≤ 299

/-- The body of the `try` block of `requestWithRetry` (lines 373-390):
a non-ok response throws `SDKError.fromResponse(status, body)` with the
parsed body or `{ error: statusText }` as fallback; an ok response
returns its payload; a rejected fetch rethrows the native error. -/
def outcomeResult : FetchOutcome → Except JsError String
  | .resolved r =>
      if responseOk r.status then .ok r.textBody
      else .error (.sdk (SDKError.fromResponse r.status
        (r.jsonBody.getD { error := some r.statusText, code := none })))
  | .rejected e => .error e

/-- Observable events of a run: a same-gateway retry (with the delay
slept before the next attempt) or a failover to another gateway. -/
inductive RetryEvent where
  | retrySame (url : String) (attempt delayMs : Nat)
  | failover (fromUrl toUrl : String) (delayMs : Nat)
deriving Repr, DecidableEq

/-- Result of a run of `requestWithRetry`: the value returned or error
thrown (`none` when the outcome trace was exhausted), the retry/failover
events in order, the final health map and gateway index, and the number
of fetch calls consumed. -/
structure RunResult where
  result : Option (Except JsError String)
  events : List RetryEvent
  health : HMap
  finalIndex : Nat
  consumed : Nat
deriving Repr, DecidableEq

/-- `HttpClient.requestWithRetry` (src/core/http.ts lines 363-442).
`idx` is `currentURLIndex`, `m` the gateway health map, `attempt` and
`gatewayAttempt` the two counters of the source.  Each call consumes the
head of `trace` as the result of its single fetch.  On an error:
retry on the same gateway while the error is retryable and
`attempt < maxRetries`, sleeping `retryDelayMs * (attempt + 1)`;
otherwise, for retryable or network errors with failover budget left,
mark the current gateway unhealthy, move to the next healthy gateway,
reset `attempt` to 0 and repeat; otherwise rethrow the error unchanged. -/
def requestWithRetry (cfg : HttpConfig) (now : Nat) (idx : Nat) (m : HMap)
    (attempt gatewayAttempt : Nat) : List FetchOutcome → RunResult
  | [] => ⟨none, [], m, idx, 0⟩
  | o :: rest =>
    let currentGatewayUrl := cfg.baseURLs.getD idx ""
    match outcomeResult o with
    | .ok v => ⟨some (.ok v), [], m, idx, 1⟩
    | .error e =>
      if isRetryableError e && attempt < cfg.maxRetries then
        let res := requestWithRetry cfg now idx m (attempt + 1) gatewayAttempt rest
        ⟨res.result,
         .retrySame currentGatewayUrl attempt (cfg.retryDelayMs * (attempt + 1)) :: res.events,
         res.health, res.finalIndex, res.consumed + 1⟩
      else if (isNetworkError e || isRetryableError e)
              && gatewayAttempt < cfg.baseURLs.length - 1 then
        let m1 := markGatewayUnhealthy cfg now m currentGatewayUrl
        let fr := findNextHealthyGateway cfg.baseURLs now idx m1
        match fr.1 with
        | some nextIdx =>
          let res := requestWithRetry cfg now nextIdx fr.2 0 (gatewayAttempt + 1) rest
          ⟨res.result,
           .failover currentGatewayUrl (cfg.baseURLs.getD nextIdx "") cfg.retryDelayMs :: res.events,
           res.health, res.finalIndex, res.consumed + 1⟩
        | none => ⟨some (.error e), [], fr.2, idx, 1⟩
      else ⟨some (.error e), [], m, idx, 1⟩

/-- Number of failover events in a run's event list. -/
def countFailovers : List RetryEvent → Nat
  | [] => 0
  | .failover _ _ _ :: rest => countFailovers rest + 1
  | .retrySame _ _ _ :: rest => countFailovers rest

/-- The conversion applied to a caller-facing failure before invoking the
`onNetworkError` callback (callback-based snapshot of `HttpClient.request`):
a non-`SDKError` is wrapped as `new SDKError(message, 0, "NETWORK_ERROR")`;
the thrown error itself is NOT replaced. -/
def toCallbackSDKError : JsError → SDKError
  | .sdk s => s
  | .native _ msg => ⟨msg, 0, "NETWORK_ERROR", ⟨none, none⟩⟩

/-! ## Per-path authentication headers -/

/-- `HttpClient.getAuthHeaders` (src/core/http.ts lines 87-131).
Database/pubsub/proxy/cache paths get only the API key, falling back to
the JWT; auth paths get both independently; all other paths get both
(JWT first).  Credentials are JS-truthy-checked. -/
def getAuthHeaders (apiKey jwt : Option String) (path : String) :
    List (String × String) :=
  let isDbOperation := strContainsSub path "/v1/rqlite/"
  let isPubSubOperation := strContainsSub path "/v1/pubsub/"
  let isProxyOperation := strContainsSub path "/v1/proxy/"
  let isCacheOperation := strContainsSub path "/v1/cache/"
  let isAuthOperation := strContainsSub path "/v1/auth/"
  if isDbOperation || isPubSubOperation || isProxyOperation || isCacheOperation then
    if credTruthy apiKey then [("X-API-Key", credVal apiKey)]
    else if credTruthy jwt then [("Authorization", "Bearer " ++ credVal jwt)]
    else []
  else if isAuthOperation then
    (if credTruthy apiKey then [("X-API-Key", credVal apiKey)] else []) ++
    (if credTruthy jwt then [("Authorization", "Bearer " ++ credVal jwt)] else [])
  else
    (if credTruthy jwt then [("Authorization", "Bearer " ++ credVal jwt)] else []) ++
    (if credTruthy apiKey then [("X-API-Key", credVal apiKey)] else [])

/-- Auth types of `PathBasedAuthStrategy` (core interfaces snapshot). -/
inductive AuthType where
  | apiKeyOnly
  | apiKeyPreferred
  | jwtPreferred
  | both
deriving Repr, DecidableEq

/-- `PathBasedAuthStrategy.detectAuthType`: first matching rule of the
`authRules` table wins, default `both`. -/
def detectAuthType (path : String) : AuthType :=
  if strContainsSub path "/v1/rqlite/" then .apiKeyOnly
  else if strContainsSub path "/v1/pubsub/" then .apiKeyOnly
  else if strContainsSub path "/v1/proxy/" then .apiKeyOnly
  else if strContainsSub path "/v1/cache/" then .apiKeyOnly
  else if strContainsSub path "/v1/auth/" then .apiKeyPreferred
  else .both

/-- `PathBasedAuthStrategy.getHeaders`: build the header map by the
detected auth type (the `jwtPreferred` case exists in the source but no
rule produces it). -/
def strategyGetHeaders (apiKey jwt : Option String) (path : String) :
    List (String × String) :=
  match detectAuthType path with
  | .apiKeyOnly =>
      if credTruthy apiKey then [("X-API-Key", credVal apiKey)]
      else if credTruthy jwt then [("Authorization", "Bearer " ++ credVal jwt)]
      else []
  | .apiKeyPreferred =>
      (if credTruthy apiKey then [("X-API-Key", credVal apiKey)] else []) ++
      (if credTruthy jwt then [("Authorization", "Bearer " ++ credVal jwt)] else [])
  | .jwtPreferred =>
      (if credTruthy jwt then [("Authorization", "Bearer " ++ credVal jwt)] else []) ++
      (if credTruthy apiKey then [("X-API-Key", credVal apiKey)] else [])
  | .both =>
      (if credTruthy jwt then [("Authorization", "Bearer " ++ credVal jwt)] else []) ++
      (if credTruthy apiKey then [("X-API-Key", credVal apiKey)] else [])

/-! ## WebSocket client (src/core/ws.ts) -/

/-- `WebSocket.OPEN` ready state. -/
def WS_OPEN : Nat := 1

/-- `WebSocket` `CLOSING` ready state, entered by `socket.close()`. -/
def WS_CLOSING : Nat := 2

/-- State of a `WSClient`: the underlying socket's ready state if a
socket was created (`this.ws`), the frames sent so far, the client's
`isClosed` flag, and the registered handler sets (handlers are
identified by tokens). -/
structure WSClientSt where
  ws : Option Nat
  sent : List String
  isClosed : Bool
  messageListeners : List Nat
  errorListeners : List Nat
  closeListeners : List Nat
deriving Repr, DecidableEq

/-- JS `Set.add`: no duplicates. -/
def setAdd (l : List Nat) (h : Nat) : List Nat :=
  if l.contains h then l else l ++ [h]

/-- JS `Set.delete`. -/
def setDel (l : List Nat) (h : Nat) : List Nat :=
  l.filter (fun x => x ≠ h)

/-- `WSClient.send` (src/core/ws.ts lines 203-208): throws a typed
`SDKError("WebSocket is not connected", 500, "WS_NOT_CONNECTED")` unless
`this.ws?.readyState === WebSocket.OPEN`; only then transmits. -/
def wsSend (w : WSClientSt) (data : String) : Except SDKError Unit × WSClientSt :=
  if w.ws = some WS_OPEN then
    (.ok (), { w with sent := w.sent ++ [data] })
  else
    (.error ⟨"WebSocket is not connected", 500, "WS_NOT_CONNECTED", ⟨none, none⟩⟩, w)

/-- `WSClient.close` (lines 213-219): idempotent via the `isClosed`
guard; closes the underlying socket if one exists. -/
def wsClose (w : WSClientSt) : WSClientSt :=
  if w.isClosed then w
  else { w with isClosed := true, ws := w.ws.map (fun _ => WS_CLOSING) }

/-- `WSClient.isConnected` (lines 224-226). -/
def wsIsConnected (w : WSClientSt) : Bool :=
  !w.isClosed && w.ws = some WS_OPEN

/-- `WSClient.offMessage` / `offError` / `offClose`: remove a handler. -/
def wsOffOpt (l : List Nat) (h : Option Nat) : List Nat :=
  match h with
  | some x => setDel l x
  | none => l

/-! ## Pub/sub subscription (src/pubsub/client.ts, presence snapshot) -/

/-- A dynamically-typed JS value, as found in the fields of a parsed
envelope. -/
inductive JVal where
  | undef
  | jnull
  | str (s : String)
  | num (n : Int)
  | jbool (b : Bool)
  | obj
deriving Repr, DecidableEq

/-- JS truthiness of a `JVal`. -/
def JVal.truthy : JVal → Bool
  | .undef => false
  | .jnull => false
  | .str s => s != ""
  | .num n => n != 0
  | .jbool b => b
  | .obj => true

/-- `typeof v === "string"`. -/
def JVal.isStr : JVal → Bool
  | .str _ => true
  | _ => false

/-- `typeof v === "number"`. -/
def JVal.isNum : JVal → Bool
  | .num _ => true
  | _ => false

/-- A parsed envelope object with the fields the handler reads
(`type`, `data`, `topic`, `timestamp`, `member_id`, `meta`), each a
dynamic JS value (`undef` when absent). -/
structure EnvelopeV where
  etype : JVal
  data : JVal
  topic : JVal
  timestamp : JVal
  member_id : JVal
  meta : JVal
deriving Repr, DecidableEq

/-- Result of `JSON.parse` on an inbound frame: a parse exception, a
non-object value, or an envelope object. -/
inductive FrameParse where
  | parseFail (msg : String)
  | notObject (v : JVal)
  | envObj (e : EnvelopeV)
deriving Repr, DecidableEq

/-- The `PresenceMember` record built by the handler:
`{ memberId: envelope.member_id, joinedAt: envelope.timestamp,
meta: envelope.meta }` (fields taken as-is, unvalidated). -/
structure PresenceMember where
  memberId : JVal
  joinedAt : JVal
  meta : JVal
deriving Repr, DecidableEq

/-- The public `PubSubMessage` delivered to message handlers. -/
structure PubSubMessage where
  topic : String
  data : String
  timestamp : Int
deriving Repr, DecidableEq

/-- One callback invocation performed while processing a frame. -/
inductive CallbackCall where
  | joinCall (m : PresenceMember)
  | leaveCall (m : PresenceMember)
  | msgCall (handler : Nat) (m : PubSubMessage)
  | errCall (handler : Nat) (msg : String)
deriving Repr, DecidableEq

/-- State of a `Subscription`: the owned `WSClient`, the `isClosed`
flag, the three externally-registered handler sets, the three internal
listener tokens registered on the `WSClient` (cleared on close), and
whether presence `onJoin`/`onLeave` callbacks were supplied. -/
structure SubSt where
  wsc : WSClientSt
  subClosed : Bool
  messageHandlers : List Nat
  errorHandlers : List Nat
  closeHandlers : List Nat
  wsMsgH : Option Nat
  wsErrH : Option Nat
  wsClsH : Option Nat
  hasOnJoin : Bool
  hasOnLeave : Bool
deriving Repr, DecidableEq

/-- `Subscription.isConnected` (lines 646-648). -/
def subIsConnected (s : SubSt) : Bool :=
  !s.subClosed && wsIsConnected s.wsc

/-- The `try` block of the subscription's `wsMessageHandler`
(src/pubsub/client.ts lines 482-551), as a function from the parsed
frame to the callback invocations it performs; a thrown `Error` is an
`Except.error` carrying the message.  The base64 decoder is a parameter
because the source's `base64Decode` branches on the runtime: the
`Buffer` branch is total, the `atob` branch can throw on invalid input. -/
def processFrameBody (dec : String → Except String String)
    (messageHandlers : List Nat) (hasOnJoin hasOnLeave : Bool) :
    FrameParse → Except String (List CallbackCall)
  | .parseFail msg => .error msg
  | .notObject _ => .error "Invalid envelope: not an object"
  | .envObj e =>
    if e.etype = .str "presence.join" ∨ e.etype = .str "presence.leave" then
      if !e.member_id.truthy then
        -- console.warn("[Subscription] Presence event missing member_id"); return;
        .ok []
      else
        let presenceMember : PresenceMember :=
          ⟨e.member_id, e.timestamp, e.meta⟩
        if e.etype = .str "presence.join" ∧ hasOnJoin then
          .ok [.joinCall presenceMember]
        else if e.etype = .str "presence.leave" ∧ hasOnLeave then
          .ok [.leaveCall presenceMember]
        else
          .ok []
    else
      if !e.data.truthy || !e.data.isStr then
        .error "Invalid envelope: missing or invalid data field"
      else if !e.topic.truthy || !e.topic.isStr then
        .error "Invalid envelope: missing or invalid topic field"
      else if !e.timestamp.isNum then
        .error "Invalid envelope: missing or invalid timestamp field"
      else
        match e.data, e.topic, e.timestamp with
        | .str d, .str t, .num ts =>
          match dec d with
          | .error msg => .error msg
          | .ok messageData =>
            .ok (messageHandlers.map (fun h => .msgCall h ⟨t, messageData, ts⟩))
        | _, _, _ => .error "Invalid envelope: missing or invalid data field"

/-- The full `wsMessageHandler` closure: the `catch` clause routes any
thrown error to every registered error handler; the entry point itself
never throws. -/
def wsMessageHandlerRun (dec : String → Except String String) (s : SubSt)
    (frame : FrameParse) : List CallbackCall :=
  match processFrameBody dec s.messageHandlers s.hasOnJoin s.hasOnLeave frame with
  | .ok calls => calls
  | .error msg => s.errorHandlers.map (fun h => .errCall h msg)

/-- Delivery of one frame to the subscription: the handler performs its
callback invocations and leaves the subscription state untouched (the
handler body never assigns to any field). -/
def deliverFrame (dec : String → Except String String) (s : SubSt)
    (frame : FrameParse) : List CallbackCall × SubSt :=
  (wsMessageHandlerRun dec s frame, s)

/-- `Subscription.close` (lines 614-641): guarded by `isClosed`;
unregisters the three internal listeners from the `WSClient`, clears all
three external handler sets, drops the listener references and closes
the socket. -/
def subClose (s : SubSt) : SubSt :=
  if s.subClosed then s
  else
    let w := s.wsc
    let w := { w with messageListeners := wsOffOpt w.messageListeners s.wsMsgH }
    let w := { w with errorListeners := wsOffOpt w.errorListeners s.wsErrH }
    let w := { w with closeListeners := wsOffOpt w.closeListeners s.wsClsH }
    { s with
        wsc := wsClose w
        subClosed := true
        messageHandlers := []
        errorHandlers := []
        closeHandlers := []
        wsMsgH := none
        wsErrH := none
        wsClsH := none }

/-- Whether a close event on the underlying socket would reach the
subscription's internal close listener (and hence its `closeHandlers`):
requires the listener token to still be registered on the `WSClient`. -/
def subCloseCallbacks (s : SubSt) : List Nat :=
  match s.wsClsH with
  | some h => if s.wsc.closeListeners.contains h then s.closeHandlers else []
  | none => []

/-- Same for an inbound message event: the frames reach the
subscription's pipeline only while its internal message listener is
registered on the `WSClient`. -/
def subMessageListenerActive (s : SubSt) : Bool :=
  match s.wsMsgH with
  | some h => s.wsc.messageListeners.contains h
  | none => false

/-- Same for an error event. -/
def subErrorListenerActive (s : SubSt) : Bool :=
  match s.wsErrH with
  | some h => s.wsc.errorListeners.contains h
  | none => false

/-! ## Base64 and UTF-8 codecs

The pub/sub publish path encodes with `Buffer.from(data).toString("base64")`
(strings are first UTF-8 encoded); the subscription path decodes with
`Buffer.from(b64, "base64").toString("utf-8")` (or `atob` + `TextDecoder`
in browsers).  The byte-level codecs of those runtime builtins are
modelled here: UTF-8 decoding is lossy, substituting U+FFFD for invalid
sequences, exactly as `toString("utf-8")`/`TextDecoder` do. -/

/-- UTF-8 encoding of one code point. -/
def utf8EncodeChar (c : Char) : List Nat :=
  if c.toNat < 0x80 then [c.toNat]
  else if c.toNat < 0x800 then [0xC0 + c.toNat / 64, 0x80 + c.toNat % 64]
  else if c.toNat < 0x10000 then
    [0xE0 + c.toNat / 4096, 0x80 + (c.toNat / 64) % 64, 0x80 + c.toNat % 64]
  else
    [0xF0 + c.toNat / 0x40000, 0x80 + (c.toNat / 4096) % 64,
     0x80 + (c.toNat / 64) % 64, 0x80 + c.toNat % 64]

/-- UTF-8 encoding of a code-point sequence. -/
def utf8Encode (cs : List Char) : List Nat :=
  (cs.map utf8EncodeChar).flatten

/-- The U+FFFD replacement character substituted for invalid input. -/
def replChar : Char := Char.ofNat 0xFFFD

/-- UTF-8 continuation byte test. -/
def isCont (b : Nat) : Bool := 0x80 ≤ b && b ≤ 0xBF

/-- Lossy UTF-8 decoding, one code point per step; `fuel` bounds the
recursion (the byte length always suffices since every step consumes at
least one byte). -/
def utf8DecodeLossyAux : Nat → List Nat → List Char
  | 0, _ => []
  | _ + 1, [] => []
  | fuel + 1, b :: rest =>
    if b < 0x80 then Char.ofNat b :: utf8DecodeLossyAux fuel rest
    else if 0xC0 ≤ b ∧ b ≤ 0xDF then
      match rest with
      | b2 :: rest2 =>
        if isCont b2 then
          Char.ofNat ((b - 0xC0) * 64 + (b2 - 0x80)) :: utf8DecodeLossyAux fuel rest2
        else replChar :: utf8DecodeLossyAux fuel rest
      | [] => [replChar]
    else if 0xE0 ≤ b ∧ b ≤ 0xEF then
      match rest with
      | b2 :: b3 :: rest3 =>
        if isCont b2 && isCont b3 then
          Char.ofNat ((b - 0xE0) * 4096 + (b2 - 0x80) * 64 + (b3 - 0x80)) ::
            utf8DecodeLossyAux fuel rest3
        else replChar :: utf8DecodeLossyAux fuel rest
      | _ => [replChar]
    else if 0xF0 ≤ b ∧ b ≤ 0xF4 then
      match rest with
      | b2 :: b3 :: b4 :: rest4 =>
        if isCont b2 && isCont b3 && isCont b4 then
          Char.ofNat ((b - 0xF0) * 0x40000 + (b2 - 0x80) * 4096 +
              (b3 - 0x80) * 64 + (b4 - 0x80)) :: utf8DecodeLossyAux fuel rest4
        else replChar :: utf8DecodeLossyAux fuel rest
      | _ => [replChar]
    else replChar :: utf8DecodeLossyAux fuel rest

/-- Lossy UTF-8 decoding of a byte sequence. -/
def utf8DecodeLossy (bs : List Nat) : List Char :=
  utf8DecodeLossyAux bs.length bs

/-- The base64 alphabet, value to character. -/
def b64ValChar (s : Nat) : Char :=
  if s < 26 then Char.ofNat (65 + s)
  else if s < 52 then Char.ofNat (97 + s - 26)
  else if s < 62 then Char.ofNat (48 + s - 52)
  else if s = 62 then '+'
  else '/'

/-- The base64 alphabet, character to value (`none` for padding and
foreign characters). -/
def b64CharVal (c : Char) : Option Nat :=
  let n := c.toNat
  if 65 ≤ n ∧ n ≤ 90 then some (n - 65)
  else if 97 ≤ n ∧ n ≤ 122 then some (n - 71)
  else if 48 ≤ n ∧ n ≤ 57 then some (n + 4)
  else if c = '+' then some 62
  else if c = '/' then some 63
  else none

/-- Standard padded base64 encoding of a byte sequence. -/
def b64EncodeBytes : List Nat → List Char
  | [] => []
  | [b1] => [b64ValChar (b1 / 4), b64ValChar ((b1 % 4) * 16), '=', '=']
  | [b1, b2] =>
      [b64ValChar (b1 / 4), b64ValChar ((b1 % 4) * 16 + b2 / 16),
       b64ValChar ((b2 % 16) * 4), '=']
  | b1 :: b2 :: b3 :: rest =>
      b64ValChar (b1 / 4) :: b64ValChar ((b1 % 4) * 16 + b2 / 16) ::
      b64ValChar ((b2 % 16) * 4 + b3 / 64) :: b64ValChar (b3 % 64) ::
      b64EncodeBytes rest

/-- Reassemble bytes from a stream of sextet values (a trailing group of
two or three sextets yields one or two bytes, as `Buffer.from(_, "base64")`
does after padding is dropped). -/
def b64DecodeGroups : List Nat → List Nat
  | s1 :: s2 :: s3 :: s4 :: rest =>
      (s1 * 4 + s2 / 16) :: ((s2 % 16) * 16 + s3 / 4) :: ((s3 % 4) * 64 + s4) ::
      b64DecodeGroups rest
  | [s1, s2, s3] => [s1 * 4 + s2 / 16, (s2 % 16) * 16 + s3 / 4]
  | [s1, s2] => [s1 * 4 + s2 / 16]
  | _ => []

/-- Forgiving base64 decoding (the `Buffer.from(b64, "base64")` branch):
characters outside the alphabet, padding included, are skipped. -/
def b64DecodeForgiving (cs : List Char) : List Nat :=
  b64DecodeGroups (cs.filterMap b64CharVal)

/-- Strict base64 decoding (the `atob` branch): input must be padded
groups of four alphabet characters; anything else throws. -/
def b64DecodeStrict : List Char → Option (List Nat)
  | [] => some []
  | [c1, c2, '=', '='] =>
      match b64CharVal c1, b64CharVal c2 with
      | some s1, some s2 => some [s1 * 4 + s2 / 16]
      | _, _ => none
  | [c1, c2, c3, '='] =>
      match b64CharVal c1, b64CharVal c2, b64CharVal c3 with
      | some s1, some s2, some s3 => some [s1 * 4 + s2 / 16, (s2 % 16) * 16 + s3 / 4]
      | _, _, _ => none
  | c1 :: c2 :: c3 :: c4 :: rest =>
      match b64CharVal c1, b64CharVal c2, b64CharVal c3, b64CharVal c4,
            b64DecodeStrict rest with
      | some s1, some s2, some s3, some s4, some bs =>
          some ((s1 * 4 + s2 / 16) :: ((s2 % 16) * 16 + s3 / 4) ::
                ((s3 % 4) * 64 + s4) :: bs)
      | _, _, _, _, _ => none
  | _ => none

/-- `base64Encode` of src/pubsub/client.ts: UTF-8 encode the string,
then base64 (the `Buffer.from(str).toString("base64")` branch). -/
def base64Encode (s : String) : String :=
  String.mk (b64EncodeBytes (utf8Encode s.toList))

/-- `base64EncodeBytes` of src/pubsub/client.ts:
`Buffer.from(bytes).toString("base64")`. -/
def base64EncodeBytes (bs : List Nat) : String :=
  String.mk (b64EncodeBytes bs)

/-- `base64Decode` of src/pubsub/client.ts, `Buffer` branch:
`Buffer.from(b64, "base64").toString("utf-8")` — total, with U+FFFD
substituted for byte sequences that are not valid UTF-8. -/
def base64Decode (b64 : String) : String :=
  String.mk (utf8DecodeLossy (b64DecodeForgiving b64.toList))

/-- `base64Decode` of src/pubsub/client.ts, `atob` branch: throws on
input that is not well-formed base64, then decodes the bytes with
`TextDecoder` (lossy UTF-8). -/
def base64DecodeAtob (b64 : String) : Except String String :=
  match b64DecodeStrict b64.toList with
  | some bs => .ok (String.mk (utf8DecodeLossy bs))
  | none => .error "InvalidCharacterError"

/-- `PubSubClient.publish` (lines 360-378) computes the `data_base64`
field of the publish body: strings via `base64Encode`, byte payloads via
`base64EncodeBytes`. -/
def publishDataBase64 : String ⊕ List Nat → String
  | .inl s => base64Encode s
  | .inr bs => base64EncodeBytes bs

/-! ## Concrete fixtures used by witnesses and counterexamples -/

/-- Two-gateway client configuration. -/
def gwCfg2 : HttpConfig :=
  { baseURLs := ["http://g1", "http://g2"], maxRetries := 3,
    retryDelayMs := 1000, gatewayHealthCheckCooldownMs := 600000 }

/-- Single-gateway client configuration. -/
def gwCfg1 : HttpConfig :=
  { baseURLs := ["http://g1"], maxRetries := 3,
    retryDelayMs := 1000, gatewayHealthCheckCooldownMs := 600000 }

/-- A 404 response whose error message happens to contain "fetch". -/
def resp404Fetch : HttpResponse :=
  { status := 404, statusText := "Not Found",
    jsonBody := some { error := some "failed to fetch item", code := none },
    textBody := "" }

/-- A plain 200 response. -/
def resp200 : HttpResponse :=
  { status := 200, statusText := "OK", jsonBody := none, textBody := "hi" }

/-- A 503 response with a JSON error body. -/
def resp503 : HttpResponse :=
  { status := 503, statusText := "Service Unavailable",
    jsonBody := some { error := some "overloaded", code := some "BUSY" },
    textBody := "" }

/-- The abort error produced when the request timeout fires
(`AbortController.abort()`): a DOMException, not a TypeError, whose
message does not contain "fetch". -/
def abortError : JsError := .native false "This operation was aborted"

/-- The error fetch rejects with on a connection-level failure
(connection refused / DNS failure): a TypeError. -/
def netFailError : JsError := .native true "fetch failed"

/-- The Buffer-branch base64 decoder wrapped for the frame pipeline
(total: never throws). -/
def decNode : String → Except String String := fun s => .ok (base64Decode s)

/-- An open subscription with one message handler (7), one error
handler (9), one close handler (11), internal listener tokens
100/101/102 registered on the socket, and presence callbacks supplied. -/
def subFix : SubSt :=
  { wsc := { ws := some WS_OPEN, sent := [], isClosed := false,
             messageListeners := [100], errorListeners := [101],
             closeListeners := [102] }
    subClosed := false
    messageHandlers := [7]
    errorHandlers := [9]
    closeHandlers := [11]
    wsMsgH := some 100
    wsErrH := some 101
    wsClsH := some 102
    hasOnJoin := true
    hasOnLeave := true }

/-- A data envelope whose `data` field is the empty string (a string,
but JS-falsy). -/
def envEmptyData : EnvelopeV :=
  { etype := .undef, data := .str "", topic := .str "room:1",
    timestamp := .num 1000, member_id := .undef, meta := .undef }

/-- A presence.join envelope with no `member_id`, all other fields
well-formed. -/
def envPresenceNoMember : EnvelopeV :=
  { etype := .str "presence.join", data := .str "aGk=",
    topic := .str "room:1", timestamp := .num 1000,
    member_id := .undef, meta := .undef }

/-- The presence.join frame of the specification's end-to-end scenario:
`{"type":"presence.join","member_id":"bob","timestamp":1000,"topic":"room:1"}`. -/
def envJoinBob : EnvelopeV :=
  { etype := .str "presence.join", data := .undef, topic := .str "room:1",
    timestamp := .num 1000, member_id := .str "bob", meta := .undef }

/-- A well-formed data envelope carrying base64 "aGk=" ("hi"). -/
def envDataHi : EnvelopeV :=
  { etype := .undef, data := .str "aGk=", topic := .str "room:1",
    timestamp := .num 1000, member_id := .undef, meta := .undef }

/-! ## Claim C10: WSClient.send gating -/

/-- C10: calling `WSClient.send` while the underlying socket is not in
the OPEN state (never connected, still connecting, or already closed)
throws a typed `SDKError` with status 500 and code `WS_NOT_CONNECTED`
and transmits nothing; `send` transmits exactly when the socket is
OPEN. -/
theorem C10_theorem (w : WSClientSt) (data : String) :
    (w.ws ≠ some WS_OPEN →
      wsSend w data =
        (.error ⟨"WebSocket is not connected", 500, "WS_NOT_CONNECTED", ⟨none, none⟩⟩, w))
    ∧ (w.ws = some WS_OPEN →
      wsSend w data = (.ok (), { w with sent := w.sent ++ [data] })) := by
  constructor <;> intro h <;> simp [wsSend, h]

/-- Witness for C10: a never-connected client rejects the send and its
outbox stays empty; an OPEN client transmits. -/
theorem C10_witness :
    wsSend ⟨none, [], false, [], [], []⟩ "ping" =
      (.error ⟨"WebSocket is not connected", 500, "WS_NOT_CONNECTED", ⟨none, none⟩⟩,
       ⟨none, [], false, [], [], []⟩)
    ∧ wsSend ⟨some WS_OPEN, [], false, [], [], []⟩ "ping" =
      (.ok (), ⟨some WS_OPEN, ["ping"], false, [], [], []⟩) :=
  ⟨(C10_theorem ⟨none, [], false, [], [], []⟩ "ping").1 (by decide),
   (C10_theorem ⟨some WS_OPEN, [], false, [], [], []⟩ "ping").2 rfl⟩

/-! ## Claim C5: per-path auth header selection -/

/-- C5 as stated is false: a path can contain both a namespace segment
and `/v1/auth/`, and then the namespace branch wins, so the bearer token
is NOT attached even though the path contains `/v1/auth/` and a JWT is
set. -/
theorem C5_counterexample :
    strContainsSub "/v1/rqlite/v1/auth/login" "/v1/auth/" = true
    ∧ getAuthHeaders (some "k") (some "j") "/v1/rqlite/v1/auth/login" = [("X-API-Key", "k")]
    ∧ (getAuthHeaders (some "k") (some "j") "/v1/rqlite/v1/auth/login").contains
        ("Authorization", "Bearer j") = false := by decide

/-- C5 (amended): for every path containing a database/pubsub/proxy/cache
segment, the headers are only `X-API-Key` when a (non-empty) API key is
set, even if a bearer token is also set, and only `Authorization` when
no API key is set but a bearer token is; for every path containing
`/v1/auth/` and NONE of those four segments, `X-API-Key` and
`Authorization` are attached independently whenever the corresponding
credential is present; the `PathBasedAuthStrategy` computes exactly the
same headers as `HttpClient.getAuthHeaders`. -/
theorem C5_theorem (apiKey jwt : Option String) (path : String) :
    ((strContainsSub path "/v1/rqlite/" || strContainsSub path "/v1/pubsub/" ||
      strContainsSub path "/v1/proxy/" || strContainsSub path "/v1/cache/") = true →
      (∀ k, apiKey = some k → k ≠ "" →
        getAuthHeaders apiKey jwt path = [("X-API-Key", k)]) ∧
      (credTruthy apiKey = false → ∀ j, jwt = some j → j ≠ "" →
        getAuthHeaders apiKey jwt path = [("Authorization", "Bearer " ++ j)]))
    ∧
    (strContainsSub path "/v1/auth/" = true →
     strContainsSub path "/v1/rqlite/" = false →
     strContainsSub path "/v1/pubsub/" = false →
     strContainsSub path "/v1/proxy/" = false →
     strContainsSub path "/v1/cache/" = false →
      (getAuthHeaders apiKey jwt path =
        (if credTruthy apiKey then [("X-API-Key", credVal apiKey)] else []) ++
        (if credTruthy jwt then [("Authorization", "Bearer " ++ credVal jwt)] else [])) ∧
      (∀ k, apiKey = some k → k ≠ "" →
        ("X-API-Key", k) ∈ getAuthHeaders apiKey jwt path) ∧
      (∀ j, jwt = some j → j ≠ "" →
        ("Authorization", "Bearer " ++ j) ∈ getAuthHeaders apiKey jwt path))
    ∧ strategyGetHeaders apiKey jwt path = getAuthHeaders apiKey jwt path := by
  refine ⟨?_, ?_, ?_⟩
  · intro hns
    constructor
    · intro k hk hke
      subst hk
      simp only [Bool.or_eq_true] at hns
      simp [getAuthHeaders, credTruthy, credVal, bne_iff_ne, hke]
      rcases hns with ((h | h) | h) | h <;> simp [h]
    · intro hak j hj hje
      subst hj
      simp only [Bool.or_eq_true] at hns
      simp [getAuthHeaders, credTruthy, credVal, bne_iff_ne, hje, hak]
      rcases hns with ((h | h) | h) | h <;> simp [h, credTruthy] at hak ⊢ <;>
        simp [hak]
  · intro ha h1 h2 h3 h4
    refine ⟨?_, ?_, ?_⟩
    · simp [getAuthHeaders, h1, h2, h3, h4, ha]
    · intro k hk hke
      subst hk
      simp [getAuthHeaders, h1, h2, h3, h4, ha, credTruthy, credVal, bne_iff_ne, hke]
    · intro j hj hje
      subst hj
      simp [getAuthHeaders, h1, h2, h3, h4, ha, credTruthy, credVal, bne_iff_ne, hje]
  · unfold strategyGetHeaders detectAuthType getAuthHeaders
    cases h1 : strContainsSub path "/v1/rqlite/" <;>
      cases h2 : strContainsSub path "/v1/pubsub/" <;>
      cases h3 : strContainsSub path "/v1/proxy/" <;>
      cases h4 : strContainsSub path "/v1/cache/" <;>
      cases h5 : strContainsSub path "/v1/auth/" <;>
      simp

/-- Witness for C5: on `/v1/rqlite/query` with both credentials set only
the API key is sent; on `/v1/auth/login` both are attached. -/
theorem C5_witness :
    getAuthHeaders (some "ak") (some "jw") "/v1/rqlite/query" = [("X-API-Key", "ak")]
    ∧ ("X-API-Key", "ak") ∈ getAuthHeaders (some "ak") (some "jw") "/v1/auth/login"
    ∧ ("Authorization", "Bearer jw") ∈ getAuthHeaders (some "ak") (some "jw") "/v1/auth/login" :=
  ⟨((C5_theorem (some "ak") (some "jw") "/v1/rqlite/query").1 (by decide)).1 "ak" rfl (by decide),
   ((C5_theorem (some "ak") (some "jw") "/v1/auth/login").2.1 (by decide) (by decide)
      (by decide) (by decide) (by decide)).2.1 "ak" rfl (by decide),
   ((C5_theorem (some "ak") (some "jw") "/v1/auth/login").2.1 (by decide) (by decide)
      (by decide) (by decide) (by decide)).2.2 "jw" rfl (by decide)⟩

/-! ## Claim C3: frame demultiplexing -/

/-- C3 as stated is false on two counts: an envelope whose `data` field
is the empty string is a "string data" envelope, but the JS truthiness
check rejects it and dispatches an error instead of a message; and a
presence-typed envelope without `member_id` (which is not covered by
the presence clause) dispatches nothing at all even when its remaining
fields form a well-formed data envelope. -/
theorem C3_counterexample :
    wsMessageHandlerRun decNode subFix (.envObj envEmptyData) =
      [.errCall 9 "Invalid envelope: missing or invalid data field"]
    ∧ wsMessageHandlerRun decNode subFix (.envObj envPresenceNoMember) = [] := by
  decide

/-- C3 (amended): a frame whose envelope type is `presence.join` or
`presence.leave` with a truthy `member_id` invokes exactly the
corresponding supplied `onJoin`/`onLeave` callback with the record
`{memberId: member_id, joinedAt: timestamp, meta}`, and no message
handler fires; a frame whose type is neither presence type and whose
envelope carries a non-empty string `data` that decodes without error,
a non-empty string `topic` and a numeric `timestamp` invokes exactly
the registered message handlers with `{topic, data: decoded, timestamp}`,
and no presence callback fires. -/
theorem C3_theorem (dec : String → Except String String) (s : SubSt) (e : EnvelopeV) :
    (e.etype = .str "presence.join" → e.member_id.truthy = true → s.hasOnJoin = true →
      wsMessageHandlerRun dec s (.envObj e) =
        [.joinCall ⟨e.member_id, e.timestamp, e.meta⟩])
    ∧ (e.etype = .str "presence.leave" → e.member_id.truthy = true → s.hasOnLeave = true →
      wsMessageHandlerRun dec s (.envObj e) =
        [.leaveCall ⟨e.member_id, e.timestamp, e.meta⟩])
    ∧ (e.etype ≠ .str "presence.join" → e.etype ≠ .str "presence.leave" →
       ∀ d t ts out, e.data = .str d → d ≠ "" → e.topic = .str t → t ≠ "" →
         e.timestamp = .num ts → dec d = .ok out →
         wsMessageHandlerRun dec s (.envObj e) =
           s.messageHandlers.map (fun h => .msgCall h ⟨t, out, ts⟩)) := by
  refine ⟨?_, ?_, ?_⟩
  · intro hty hmem hj
    simp [wsMessageHandlerRun, processFrameBody, hty, hmem, hj]
  · intro hty hmem hl
    simp [wsMessageHandlerRun, processFrameBody, hty, hmem, hl]
  · intro hj hl d t ts out hd hde ht hte hts hdec
    simp [wsMessageHandlerRun, processFrameBody, hj, hl, hd, ht, hts, hdec,
      JVal.truthy, JVal.isStr, JVal.isNum, bne_iff_ne, hde, hte]

/-- Witness for C3: the spec's presence.join scenario dispatches exactly
one onJoin call carrying memberId "bob" and joinedAt 1000, and a data
envelope carrying base64 "aGk=" dispatches exactly one message call with
decoded data "hi". -/
theorem C3_witness :
    wsMessageHandlerRun decNode subFix (.envObj envJoinBob) =
      [.joinCall ⟨.str "bob", .num 1000, .undef⟩]
    ∧ wsMessageHandlerRun decNode subFix (.envObj envDataHi) =
      [.msgCall 7 ⟨"room:1", "hi", 1000⟩] :=
  ⟨(C3_theorem decNode subFix envJoinBob).1 rfl (by decide) rfl,
   (C3_theorem decNode subFix envDataHi).2.2 (by decide) (by decide)
     "aGk=" "room:1" 1000 "hi" rfl (by decide) rfl (by decide) rfl (by decide)⟩

/-! ## Claim C4: malformed frames are non-fatal -/

/-- C4 as stated is false for a presence-typed frame missing
`member_id`: the handler logs a warning and returns without invoking
any error handler (the registered error handler 9 receives nothing),
even though the claim lists this failure among those reported via
`onError`. -/
theorem C4_counterexample :
    wsMessageHandlerRun decNode subFix (.envObj envPresenceNoMember) = []
    ∧ subFix.errorHandlers = [9]
    ∧ subIsConnected subFix = true := by decide

/-- C4 (amended): a frame that fails the processing pipeline by JSON
parse failure, non-object payload, envelope field validation (invalid
`data`, invalid `topic`, or non-numeric `timestamp`), or base64 decode
failure invokes all registered onError handlers with the thrown error;
a presence-typed frame missing `member_id` is instead logged and
dropped without invoking any handler; in every case the
frame-processing entry point does not throw (it is a total function)
and the subscription state — hence `isConnected()` — is untouched. -/
theorem C4_theorem (dec : String → Except String String) (s : SubSt) :
    (∀ msg, wsMessageHandlerRun dec s (.parseFail msg) =
        s.errorHandlers.map (fun h => .errCall h msg))
    ∧ (∀ v, wsMessageHandlerRun dec s (.notObject v) =
        s.errorHandlers.map (fun h => .errCall h "Invalid envelope: not an object"))
    ∧ (∀ e, e.etype ≠ .str "presence.join" → e.etype ≠ .str "presence.leave" →
        (e.data.truthy = false ∨ e.data.isStr = false) →
        wsMessageHandlerRun dec s (.envObj e) =
          s.errorHandlers.map
            (fun h => .errCall h "Invalid envelope: missing or invalid data field"))
    ∧ (∀ e, e.etype ≠ .str "presence.join" → e.etype ≠ .str "presence.leave" →
        e.data.truthy = true → e.data.isStr = true →
        (e.topic.truthy = false ∨ e.topic.isStr = false) →
        wsMessageHandlerRun dec s (.envObj e) =
          s.errorHandlers.map
            (fun h => .errCall h "Invalid envelope: missing or invalid topic field"))
    ∧ (∀ e, e.etype ≠ .str "presence.join" → e.etype ≠ .str "presence.leave" →
        e.data.truthy = true → e.data.isStr = true →
        e.topic.truthy = true → e.topic.isStr = true →
        e.timestamp.isNum = false →
        wsMessageHandlerRun dec s (.envObj e) =
          s.errorHandlers.map
            (fun h => .errCall h "Invalid envelope: missing or invalid timestamp field"))
    ∧ (∀ e d msg, e.etype ≠ .str "presence.join" → e.etype ≠ .str "presence.leave" →
        e.data = .str d → d ≠ "" → e.topic.truthy = true → e.topic.isStr = true →
        e.timestamp.isNum = true → dec d = .error msg →
        wsMessageHandlerRun dec s (.envObj e) =
          s.errorHandlers.map (fun h => .errCall h msg))
    ∧ (∀ e, (e.etype = .str "presence.join" ∨ e.etype = .str "presence.leave") →
        e.member_id.truthy = false →
        wsMessageHandlerRun dec s (.envObj e) = [])
    ∧ (∀ frame, (deliverFrame dec s frame).2 = s ∧
        subIsConnected (deliverFrame dec s frame).2 = subIsConnected s) := by
  refine ⟨?_, ?_, ?_, ?_, ?_, ?_, ?_, ?_⟩
  · intro msg; simp [wsMessageHandlerRun, processFrameBody]
  · intro v; simp [wsMessageHandlerRun, processFrameBody]
  · intro e hj hl hbad
    rcases hbad with hbad | hbad <;>
      simp [wsMessageHandlerRun, processFrameBody, hj, hl, hbad]
  · intro e hj hl hdt hds hbad
    rcases hbad with hbad | hbad <;>
      simp [wsMessageHandlerRun, processFrameBody, hj, hl, hdt, hds, hbad]
  · intro e hj hl hdt hds htt hti hts
    simp [wsMessageHandlerRun, processFrameBody, hj, hl, hdt, hds, htt, hti, hts]
  · intro e d msg hj hl hd hde htt hti hts hdec
    rcases e with ⟨ety, edata, etopic, ets, emem, emeta⟩
    cases etopic <;> simp [JVal.isStr] at hti
    cases ets <;> simp [JVal.isNum] at hts
    simp_all [wsMessageHandlerRun, processFrameBody, JVal.truthy, JVal.isStr,
      JVal.isNum, bne_iff_ne]
  · intro e hty hmem
    rcases hty with hty | hty <;>
      simp [wsMessageHandlerRun, processFrameBody, hty, hmem]
  · intro frame; exact ⟨rfl, rfl⟩

/-- Witness for C4: a JSON parse failure invokes the registered error
handler; a numeric `topic` field fails topic validation and reaches the
error handler; a non-numeric `timestamp` likewise; the atob-branch
base64 decoder rejects "!!!!" and that decode failure is routed to the
error handler as well. -/
theorem C4_witness :
    wsMessageHandlerRun base64DecodeAtob subFix (.parseFail "Unexpected token") =
      [.errCall 9 "Unexpected token"]
    ∧ wsMessageHandlerRun base64DecodeAtob subFix
        (.envObj { etype := .undef, data := .str "aGk=", topic := .num 5,
                   timestamp := .num 1000, member_id := .undef, meta := .undef }) =
      [.errCall 9 "Invalid envelope: missing or invalid topic field"]
    ∧ wsMessageHandlerRun base64DecodeAtob subFix
        (.envObj { etype := .undef, data := .str "aGk=", topic := .str "room:1",
                   timestamp := .str "soon", member_id := .undef, meta := .undef }) =
      [.errCall 9 "Invalid envelope: missing or invalid timestamp field"]
    ∧ wsMessageHandlerRun base64DecodeAtob subFix
        (.envObj { etype := .undef, data := .str "!!!!", topic := .str "room:1",
                   timestamp := .num 1000, member_id := .undef, meta := .undef }) =
      [.errCall 9 "InvalidCharacterError"] :=
  ⟨(C4_theorem base64DecodeAtob subFix).1 "Unexpected token",
   (C4_theorem base64DecodeAtob subFix).2.2.2.1
     { etype := .undef, data := .str "aGk=", topic := .num 5,
       timestamp := .num 1000, member_id := .undef, meta := .undef }
     (by decide) (by decide) (by decide) (by decide) (Or.inr (by decide)),
   (C4_theorem base64DecodeAtob subFix).2.2.2.2.1
     { etype := .undef, data := .str "aGk=", topic := .str "room:1",
       timestamp := .str "soon", member_id := .undef, meta := .undef }
     (by decide) (by decide) (by decide) (by decide) (by decide) (by decide) (by decide),
   (C4_theorem base64DecodeAtob subFix).2.2.2.2.2.1
     { etype := .undef, data := .str "!!!!", topic := .str "room:1",
       timestamp := .num 1000, member_id := .undef, meta := .undef }
     "!!!!" "InvalidCharacterError" (by decide) (by decide) rfl (by decide)
     (by decide) (by decide) (by decide) (by decide)⟩

/-! ## Codec round-trip lemmas -/

theorem b64_char_rt : ∀ s : Fin 64, b64CharVal (b64ValChar s.val) = some s.val := by
  decide

theorem b64CharVal_eq (s : Nat) (h : s < 64) : b64CharVal (b64ValChar s) = some s :=
  b64_char_rt ⟨s, h⟩

theorem b64CharVal_pad : b64CharVal '=' = none := by decide

theorem b64_rt : ∀ bs : List Nat, (∀ b ∈ bs, b < 256) →
    b64DecodeForgiving (b64EncodeBytes bs) = bs
  | [], _ => rfl
  | [b1], h => by
    have hb1 : b1 < 256 := h b1 (by simp)
    simp only [b64EncodeBytes, b64DecodeForgiving, List.filterMap_cons,
      b64CharVal_eq (b1 / 4) (by omega), b64CharVal_eq ((b1 % 4) * 16) (by omega),
      b64CharVal_pad, List.filterMap_nil]
    simp only [b64DecodeGroups]
    congr 1
    omega
  | [b1, b2], h => by
    have hb1 : b1 < 256 := h b1 (by simp)
    have hb2 : b2 < 256 := h b2 (by simp)
    simp only [b64EncodeBytes, b64DecodeForgiving, List.filterMap_cons,
      b64CharVal_eq (b1 / 4) (by omega),
      b64CharVal_eq ((b1 % 4) * 16 + b2 / 16) (by omega),
      b64CharVal_eq ((b2 % 16) * 4) (by omega),
      b64CharVal_pad, List.filterMap_nil]
    simp only [b64DecodeGroups, List.cons.injEq, and_true]
    exact ⟨by omega, by omega⟩
  | b1 :: b2 :: b3 :: rest, h => by
    have hb1 : b1 < 256 := h b1 (by simp)
    have hb2 : b2 < 256 := h b2 (by simp)
    have hb3 : b3 < 256 := h b3 (by simp)
    have ih := b64_rt rest (fun b hb => h b (by simp [hb]))
    simp only [b64DecodeForgiving] at ih
    simp only [b64EncodeBytes, b64DecodeForgiving, List.filterMap_cons,
      b64CharVal_eq (b1 / 4) (by omega),
      b64CharVal_eq ((b1 % 4) * 16 + b2 / 16) (by omega),
      b64CharVal_eq ((b2 % 16) * 4 + b3 / 64) (by omega),
      b64CharVal_eq (b3 % 64) (by omega)]
    simp only [b64DecodeGroups, List.cons.injEq]
    exact ⟨by omega, by omega, by omega, ih⟩

theorem utf8Encode_nil : utf8Encode [] = [] := rfl

theorem utf8Encode_cons (c : Char) (cs : List Char) :
    utf8Encode (c :: cs) = utf8EncodeChar c ++ utf8Encode cs := by
  simp [utf8Encode]

theorem char_toNat_lt (c : Char) : c.toNat < 0x110000 := by
  rcases c.valid with h | h <;> (simp only [Char.toNat]; omega)

theorem utf8EncodeChar_length_pos (c : Char) : 1 ≤ (utf8EncodeChar c).length := by
  unfold utf8EncodeChar
  split <;> try simp
  split <;> try simp
  split <;> simp

theorem utf8Encode_length_ge (cs : List Char) : cs.length ≤ (utf8Encode cs).length := by
  induction cs with
  | nil => simp [utf8Encode]
  | cons c cs ih =>
    rw [utf8Encode_cons]
    have := utf8EncodeChar_length_pos c
    simp only [List.length_append, List.length_cons]
    omega

theorem utf8Encode_bytes_lt (cs : List Char) : ∀ b ∈ utf8Encode cs, b < 256 := by
  induction cs with
  | nil => simp [utf8Encode]
  | cons c cs ih =>
    rw [utf8Encode_cons]
    intro b hb
    rcases List.mem_append.mp hb with hb | hb
    · have hc := char_toNat_lt c
      unfold utf8EncodeChar at hb
      split at hb
      · simp at hb; omega
      · split at hb
        · simp at hb; rcases hb with hb | hb <;> omega
        · split at hb
          · simp at hb; rcases hb with hb | hb | hb <;> omega
          · simp at hb; rcases hb with hb | hb | hb | hb <;> omega
    · exact ih b hb

theorem utf8_aux_rt : ∀ (cs : List Char) (fuel : Nat), cs.length ≤ fuel →
    utf8DecodeLossyAux fuel (utf8Encode cs) = cs
  | [], fuel, _ => by
    cases fuel <;> simp [utf8Encode, utf8DecodeLossyAux]
  | c :: cs, fuel, h => by
    cases fuel with
    | zero => simp at h
    | succ f =>
      have hf : cs.length ≤ f := by simpa using h
      have ih := utf8_aux_rt cs f hf
      rw [utf8Encode_cons]
      have hc := char_toNat_lt c
      by_cases h1 : c.toNat < 0x80
      · have he : utf8EncodeChar c = [c.toNat] := by
          unfold utf8EncodeChar
          rw [if_pos h1]
        rw [he, List.cons_append, List.nil_append]
        simp only [utf8DecodeLossyAux, if_pos h1]
        rw [Char.ofNat_toNat, ih]
      · by_cases h2 : c.toNat < 0x800
        · have he : utf8EncodeChar c = [0xC0 + c.toNat / 64, 0x80 + c.toNat % 64] := by
            unfold utf8EncodeChar
            rw [if_neg h1, if_pos h2]
          rw [he, List.cons_append, List.cons_append, List.nil_append]
          simp only [utf8DecodeLossyAux]
          rw [if_neg (by omega), if_pos (by constructor <;> omega)]
          have hcont : isCont (0x80 + c.toNat % 64) = true := by
            simp only [isCont, Bool.and_eq_true, decide_eq_true_eq]
            omega
          rw [if_pos hcont]
          have hval : (0xC0 + c.toNat / 64 - 0xC0) * 64 + (0x80 + c.toNat % 64 - 0x80)
              = c.toNat := by omega
          rw [hval, Char.ofNat_toNat, ih]
        · by_cases h3 : c.toNat < 0x10000
          · have he : utf8EncodeChar c =
                [0xE0 + c.toNat / 4096, 0x80 + (c.toNat / 64) % 64, 0x80 + c.toNat % 64] := by
              unfold utf8EncodeChar
              rw [if_neg h1, if_neg h2, if_pos h3]
            rw [he, List.cons_append, List.cons_append, List.cons_append, List.nil_append]
            simp only [utf8DecodeLossyAux]
            rw [if_neg (by omega), if_neg (by omega), if_pos (by constructor <;> omega)]
            have hcont : (isCont (0x80 + (c.toNat / 64) % 64) &&
                isCont (0x80 + c.toNat % 64)) = true := by
              simp only [isCont, Bool.and_eq_true, decide_eq_true_eq]
              omega
            rw [if_pos hcont]
            have hval : (0xE0 + c.toNat / 4096 - 0xE0) * 4096 +
                (0x80 + (c.toNat / 64) % 64 - 0x80) * 64 + (0x80 + c.toNat % 64 - 0x80)
                = c.toNat := by omega
            rw [hval, Char.ofNat_toNat, ih]
          · have he : utf8EncodeChar c =
                [0xF0 + c.toNat / 0x40000, 0x80 + (c.toNat / 4096) % 64,
                 0x80 + (c.toNat / 64) % 64, 0x80 + c.toNat % 64] := by
              unfold utf8EncodeChar
              rw [if_neg h1, if_neg h2, if_neg h3]
            rw [he, List.cons_append, List.cons_append, List.cons_append,
              List.cons_append, List.nil_append]
            simp only [utf8DecodeLossyAux]
            rw [if_neg (by omega), if_neg (by omega), if_neg (by omega),
              if_pos (by constructor <;> omega)]
            have hcont : (isCont (0x80 + (c.toNat / 4096) % 64) &&
                (isCont (0x80 + (c.toNat / 64) % 64) && isCont (0x80 + c.toNat % 64))) = true := by
              simp only [isCont, Bool.and_eq_true, decide_eq_true_eq]
              omega
            rw [if_pos (by simpa [Bool.and_assoc] using hcont)]
            have hval : (0xF0 + c.toNat / 0x40000 - 0xF0) * 0x40000 +
                (0x80 + (c.toNat / 4096) % 64 - 0x80) * 4096 +
                (0x80 + (c.toNat / 64) % 64 - 0x80) * 64 + (0x80 + c.toNat % 64 - 0x80)
                = c.toNat := by omega
            rw [hval, Char.ofNat_toNat, ih]

theorem utf8_rt (cs : List Char) : utf8DecodeLossy (utf8Encode cs) = cs :=
  utf8_aux_rt cs (utf8Encode cs).length (utf8Encode_length_ge cs)

/-! ## Claim C9: base64 publish/subscribe round trip -/

/-- C9 as stated is false for byte payloads that are not valid UTF-8:
the subscription decoder converts the decoded bytes to a string via
UTF-8, so the byte 0xFF comes back as the replacement character U+FFFD,
not as 0xFF. -/
theorem C9_counterexample :
    base64EncodeBytes [255] = "/w=="
    ∧ base64Decode (base64EncodeBytes [255]) = String.mk [replChar]
    ∧ utf8Encode (base64Decode (base64EncodeBytes [255])).toList ≠ [255] := by
  decide

/-- C9 (amended): for every string payload — arbitrary Unicode text,
including NUL characters and non-ASCII — encoding with the publish
path's `base64Encode` and decoding with the subscription path's
`base64Decode` reproduces the payload exactly; a byte payload encoded
with `base64EncodeBytes` is reproduced exactly (as the UTF-8 bytes of
the decoded string) whenever it is a valid UTF-8 encoding; byte payloads
that are not valid UTF-8 are mangled by the UTF-8 conversion of the
decode path. -/
theorem C9_theorem :
    (∀ s : String, base64Decode (base64Encode s) = s)
    ∧ (∀ cs : List Char,
        base64Decode (base64EncodeBytes (utf8Encode cs)) = String.mk cs)
    ∧ (∀ cs : List Char,
        utf8Encode (base64Decode (base64EncodeBytes (utf8Encode cs))).toList
          = utf8Encode cs) := by
  have key : ∀ cs : List Char,
      base64Decode (base64EncodeBytes (utf8Encode cs)) = String.mk cs := by
    intro cs
    unfold base64Decode base64EncodeBytes
    have hmk : (String.mk (b64EncodeBytes (utf8Encode cs))).toList
        = b64EncodeBytes (utf8Encode cs) := rfl
    rw [hmk, b64_rt (utf8Encode cs) (utf8Encode_bytes_lt cs), utf8_rt]
  refine ⟨?_, key, ?_⟩
  · intro s
    have := key s.toList
    rwa [show String.mk s.toList = s from by cases s; rfl] at this
  · intro cs
    rw [key cs]
    rfl

/-! ## Claim C8: Subscription.close is idempotent and final -/

theorem not_mem_setDel (l : List Nat) (x : Nat) : x ∉ setDel l x := by
  simp [setDel, List.mem_filter]

theorem setDel_contains (l : List Nat) (x : Nat) : (setDel l x).contains x = false := by
  simpa using not_mem_setDel l x

theorem wsClose_listeners (w : WSClientSt) :
    (wsClose w).messageListeners = w.messageListeners
    ∧ (wsClose w).errorListeners = w.errorListeners
    ∧ (wsClose w).closeListeners = w.closeListeners := by
  unfold wsClose
  split <;> simp

theorem wsClose_isClosed (w : WSClientSt) : (wsClose w).isClosed = true := by
  unfold wsClose
  split <;> simp_all

/-- C8: `Subscription.close()` is idempotent — a second call returns the
same state, performs nothing, and raises nothing (the model is a total
function) — and after the first close all external handler sets are
cleared, the three internal listeners are unregistered from the
underlying socket (so a later socket close/message/error event reaches
no subscription callback), the socket is closed and the subscription
reports disconnected. -/
theorem C8_theorem (s : SubSt) (h : s.subClosed = false) :
    subClose (subClose s) = subClose s
    ∧ (subClose s).messageHandlers = []
    ∧ (subClose s).errorHandlers = []
    ∧ (subClose s).closeHandlers = []
    ∧ subCloseCallbacks (subClose s) = []
    ∧ subMessageListenerActive (subClose s) = false
    ∧ subErrorListenerActive (subClose s) = false
    ∧ (∀ t, s.wsMsgH = some t → (subClose s).wsc.messageListeners.contains t = false)
    ∧ (∀ t, s.wsErrH = some t → (subClose s).wsc.errorListeners.contains t = false)
    ∧ (∀ t, s.wsClsH = some t → (subClose s).wsc.closeListeners.contains t = false)
    ∧ (subClose s).wsc.isClosed = true
    ∧ subIsConnected (subClose s) = false := by
  have heq : subClose s =
      { wsc := wsClose
          { s.wsc with
              messageListeners := wsOffOpt s.wsc.messageListeners s.wsMsgH
              errorListeners := wsOffOpt s.wsc.errorListeners s.wsErrH
              closeListeners := wsOffOpt s.wsc.closeListeners s.wsClsH }
        subClosed := true
        messageHandlers := []
        errorHandlers := []
        closeHandlers := []
        wsMsgH := none
        wsErrH := none
        wsClsH := none
        hasOnJoin := s.hasOnJoin
        hasOnLeave := s.hasOnLeave } := by
    unfold subClose
    rw [if_neg (by simp [h])]
  rw [heq]
  refine ⟨?_, rfl, rfl, rfl, rfl, rfl, rfl, ?_, ?_, ?_, wsClose_isClosed _, rfl⟩
  · unfold subClose
    rw [if_pos rfl]
  · intro t ht
    rw [(wsClose_listeners _).1]
    simp only [wsOffOpt, ht]
    exact setDel_contains _ _
  · intro t ht
    rw [(wsClose_listeners _).2.1]
    simp only [wsOffOpt, ht]
    exact setDel_contains _ _
  · intro t ht
    rw [(wsClose_listeners _).2.2]
    simp only [wsOffOpt, ht]
    exact setDel_contains _ _

/-- Witness for C8: closing the concrete open subscription twice gives
the same state as closing it once, the handler sets are cleared, a
socket close event reaches no subscription close handler, and the
internal message listener token 100 was removed from the socket. -/
theorem C8_witness :
    subClose (subClose subFix) = subClose subFix
    ∧ (subClose subFix).messageHandlers = []
    ∧ subCloseCallbacks (subClose subFix) = []
    ∧ (subClose subFix).wsc.messageListeners.contains 100 = false
    ∧ subIsConnected (subClose subFix) = false :=
  ⟨(C8_theorem subFix rfl).1,
   (C8_theorem subFix rfl).2.1,
   (C8_theorem subFix rfl).2.2.2.2.1,
   (C8_theorem subFix rfl).2.2.2.2.2.2.2.1 100 rfl,
   (C8_theorem subFix rfl).2.2.2.2.2.2.2.2.2.2.2⟩

/-! ## Claim C1: same-gateway retry classification and delay -/

/-- C1 as stated is false in its terminal clause: a 404 response whose
error message contains the substring "fetch" is classified as a network
error by `isNetworkError`, so with a second gateway configured it is
NOT surfaced — the transport fails over and the run below ends in the
second gateway's success, with a failover event recorded. -/
theorem C1_counterexample :
    requestWithRetry gwCfg2 0 0 (initGatewayHealth gwCfg2.baseURLs) 0 0
        [.resolved resp404Fetch, .resolved resp200] =
      { result := some (.ok "hi")
        events := [.failover "http://g1" "http://g2" 1000]
        health := [("http://g1", some 600000), ("http://g2", none)]
        finalIndex := 1
        consumed := 2 }
    ∧ isRetryableError (.sdk (SDKError.fromResponse 404
        { error := some "failed to fetch item", code := none })) = false := by
  constructor
  · rfl
  · decide

/-- C1 (amended): a failed attempt is retried on the same gateway iff
the failure is a typed HTTP error with status in
{408, 429, 500, 502, 503, 504} and the attempt index k < maxRetries;
the delay slept before the next attempt is `retryDelayMs * (k+1)`,
monotonically non-decreasing in k; any other non-2xx typed error whose
message does not contain the substring "fetch" is never retried and is
surfaced immediately, unchanged, as the typed error carrying status,
code and details; the `ExponentialBackoffRetryPolicy.shouldRetry`
predicate agrees with the transport's retry condition. -/
theorem C1_theorem (cfg : HttpConfig) (now idx : Nat) (m : HMap)
    (o : FetchOutcome) (rest : List FetchOutcome) (attempt ga : Nat) (e : JsError)
    (ho : outcomeResult o = .error e) :
    ((∃ evs, (requestWithRetry cfg now idx m attempt ga (o :: rest)).events =
        .retrySame (cfg.baseURLs.getD idx "") attempt (cfg.retryDelayMs * (attempt + 1)) :: evs)
      ↔ (isRetryableError e = true ∧ attempt < cfg.maxRetries))
    ∧ (isRetryableError e = true → attempt < cfg.maxRetries →
        requestWithRetry cfg now idx m attempt ga (o :: rest) =
          { result := (requestWithRetry cfg now idx m (attempt + 1) ga rest).result
            events := .retrySame (cfg.baseURLs.getD idx "") attempt
                (cfg.retryDelayMs * (attempt + 1)) ::
              (requestWithRetry cfg now idx m (attempt + 1) ga rest).events
            health := (requestWithRetry cfg now idx m (attempt + 1) ga rest).health
            finalIndex := (requestWithRetry cfg now idx m (attempt + 1) ga rest).finalIndex
            consumed := (requestWithRetry cfg now idx m (attempt + 1) ga rest).consumed + 1 })
    ∧ cfg.retryDelayMs * (attempt + 1) ≤ cfg.retryDelayMs * (attempt + 1 + 1)
    ∧ (∀ s, e = .sdk s → retryableStatuses.contains s.httpStatus = false →
        strContainsSub s.message "fetch" = false →
        requestWithRetry cfg now idx m attempt ga (o :: rest) =
          { result := some (.error (.sdk s)), events := [], health := m,
            finalIndex := idx, consumed := 1 })
    ∧ (∀ k, shouldRetry cfg.maxRetries e k =
        (isRetryableError e && decide (k < cfg.maxRetries))) := by
  refine ⟨?_, ?_, ?_, ?_, ?_⟩
  · constructor
    · intro ⟨evs, hevs⟩
      by_cases hr : isRetryableError e && attempt < cfg.maxRetries
      · simp only [Bool.and_eq_true, decide_eq_true_eq] at hr
        exact hr
      · exfalso
        simp only [requestWithRetry, ho, hr, Bool.false_eq_true, if_false] at hevs
        by_cases hn : (isNetworkError e || isRetryableError e)
              && ga < cfg.baseURLs.length - 1
        · simp only [hn, if_true] at hevs
          rcases hfr : (findNextHealthyGateway cfg.baseURLs now idx
              (markGatewayUnhealthy cfg now m (cfg.baseURLs.getD idx ""))).1 with _ | j <;>
            rw [hfr] at hevs <;> simp at hevs
        · simp only [hn, Bool.false_eq_true, if_false] at hevs
          simp at hevs
    · intro ⟨h1, h2⟩
      refine ⟨(requestWithRetry cfg now idx m (attempt + 1) ga rest).events, ?_⟩
      simp [requestWithRetry, ho, h1, h2]
  · intro h1 h2
    simp [requestWithRetry, ho, h1, h2]
  · have := Nat.mul_le_mul_left cfg.retryDelayMs
      (Nat.succ_le_succ (Nat.le_succ attempt))
    simpa using this
  · intro s hs hterm hmsg
    subst hs
    have hterm' : s.httpStatus ∉ retryableStatuses := by simpa using hterm
    simp [requestWithRetry, ho, isRetryableError, isNetworkError, hterm', hmsg]
  · intro k
    unfold shouldRetry isRetryableError
    cases e with
    | sdk es =>
      rcases Nat.lt_or_ge k cfg.maxRetries with hk | hk
      · rw [if_neg (Nat.not_le.mpr hk)]
        simp [hk]
      · rw [if_pos hk]
        simp [Nat.not_lt.mpr hk]
    | native te msg => simp

/-- Witness for C1: a 503 with JSON body at attempt 0 under
maxRetries 3 is retried on the same gateway after 1000 ms, and the run
equation of the retry branch holds at these concrete inputs. -/
theorem C1_witness :
    requestWithRetry gwCfg2 0 0 (initGatewayHealth gwCfg2.baseURLs) 0 0
        [.resolved resp503, .resolved resp200] =
      { result := (requestWithRetry gwCfg2 0 0 (initGatewayHealth gwCfg2.baseURLs) 1 0
            [.resolved resp200]).result
        events := .retrySame (gwCfg2.baseURLs.getD 0 "") 0 (gwCfg2.retryDelayMs * (0 + 1)) ::
          (requestWithRetry gwCfg2 0 0 (initGatewayHealth gwCfg2.baseURLs) 1 0
            [.resolved resp200]).events
        health := (requestWithRetry gwCfg2 0 0 (initGatewayHealth gwCfg2.baseURLs) 1 0
            [.resolved resp200]).health
        finalIndex := (requestWithRetry gwCfg2 0 0 (initGatewayHealth gwCfg2.baseURLs) 1 0
            [.resolved resp200]).finalIndex
        consumed := (requestWithRetry gwCfg2 0 0 (initGatewayHealth gwCfg2.baseURLs) 1 0
            [.resolved resp200]).consumed + 1 } :=
  (C1_theorem gwCfg2 0 0 (initGatewayHealth gwCfg2.baseURLs) (.resolved resp503)
      [.resolved resp200] 0 0
      (.sdk (SDKError.fromResponse 503 { error := some "overloaded", code := some "BUSY" }))
      (by decide)).2.1 (by decide) (by decide)

/-! ## Claim C6: timeouts are not in fact retryable -/

/-- C6 as stated is false: the abort error raised when the timeout
fires is neither a typed SDKError (so it is not status-retryable) nor a
TypeError with "fetch" in its message (so it is not network-level);
with two gateways configured and retry budget available it is surfaced
immediately, with no same-gateway retry and no failover, and it carries
no timeout error code. -/
theorem C6_counterexample :
    requestWithRetry gwCfg2 0 0 (initGatewayHealth gwCfg2.baseURLs) 0 0
        [.rejected abortError, .resolved resp200] =
      { result := some (.error abortError), events := [],
        health := initGatewayHealth gwCfg2.baseURLs, finalIndex := 0, consumed := 1 }
    ∧ isRetryableError abortError = false
    ∧ isNetworkError abortError = false
    ∧ abortError.isSDK = false := by
  refine ⟨rfl, by decide, by decide, rfl⟩

/-- C6 (amended): when the timeout expires the in-flight fetch is
aborted, but the resulting abort error is not a typed SDK error and
carries no timeout code; being neither a TypeError nor an error whose
message contains "fetch", it is classified neither retryable nor
network-level, and the transport surfaces it immediately — no
same-gateway retry, no failover — regardless of the retry budget. -/
theorem C6_theorem (cfg : HttpConfig) (now idx : Nat) (m : HMap)
    (rest : List FetchOutcome) (attempt ga : Nat) (msg : String)
    (hmsg : strContainsSub msg "fetch" = false) :
    isRetryableError (.native false msg) = false
    ∧ isNetworkError (.native false msg) = false
    ∧ (JsError.native false msg).isSDK = false
    ∧ requestWithRetry cfg now idx m attempt ga (.rejected (.native false msg) :: rest) =
        { result := some (.error (.native false msg)), events := [], health := m,
          finalIndex := idx, consumed := 1 } := by
  refine ⟨rfl, ?_, rfl, ?_⟩
  · simp [isNetworkError, hmsg]
  · simp [requestWithRetry, outcomeResult, isRetryableError, isNetworkError, hmsg]

/-- Witness for C6: the canonical abort message "This operation was
aborted" does not contain "fetch", and the two-gateway run surfaces it
untouched. -/
theorem C6_witness :
    isRetryableError (.native false "This operation was aborted") = false
    ∧ isNetworkError (.native false "This operation was aborted") = false
    ∧ (JsError.native false "This operation was aborted").isSDK = false
    ∧ requestWithRetry gwCfg2 5 0 (initGatewayHealth gwCfg2.baseURLs) 0 0
        [.rejected (.native false "This operation was aborted")] =
        { result := some (.error (.native false "This operation was aborted")),
          events := [], health := initGatewayHealth gwCfg2.baseURLs,
          finalIndex := 0, consumed := 1 } :=
  C6_theorem gwCfg2 5 0 (initGatewayHealth gwCfg2.baseURLs) [] 0 0
    "This operation was aborted" (by decide)

/-! ## Claim C7: network failures reach the caller unwrapped -/

/-- C7 as stated is false: a connection-level TypeError is raised to the
caller as-is — it is not a typed SDKError at all, so the caller does not
receive an error with code NETWORK_ERROR and status 0; that typed error
exists only as the value passed to the `onNetworkError` callback. -/
theorem C7_counterexample :
    requestWithRetry gwCfg1 0 0 (initGatewayHealth gwCfg1.baseURLs) 0 0
        [.rejected netFailError] =
      { result := some (.error netFailError), events := [],
        health := initGatewayHealth gwCfg1.baseURLs, finalIndex := 0, consumed := 1 }
    ∧ netFailError.isSDK = false := by
  exact ⟨rfl, rfl⟩

/-- C7 (amended): a network-level failure (TypeError before any
response) propagates to the caller as the original native error,
unchanged and untyped, once no failover budget remains; the typed error
with string code NETWORK_ERROR and numeric status 0 is constructed only
for the `onNetworkError` callback (callback-based transport snapshot),
from that original error's message. -/
theorem C7_theorem (cfg : HttpConfig) (now idx : Nat) (m : HMap)
    (rest : List FetchOutcome) (attempt ga : Nat) (te : Bool) (msg : String)
    (hga : cfg.baseURLs.length - 1 ≤ ga) :
    requestWithRetry cfg now idx m attempt ga (.rejected (.native te msg) :: rest) =
      { result := some (.error (.native te msg)), events := [], health := m,
        finalIndex := idx, consumed := 1 }
    ∧ (JsError.native te msg).isSDK = false
    ∧ (toCallbackSDKError (.native te msg)).code = "NETWORK_ERROR"
    ∧ (toCallbackSDKError (.native te msg)).httpStatus = 0
    ∧ (toCallbackSDKError (.native te msg)).message = msg := by
  refine ⟨?_, rfl, rfl, rfl, rfl⟩
  simp [requestWithRetry, outcomeResult, isRetryableError, Nat.not_lt_of_le hga]

/-- Witness for C7: with a single gateway, "fetch failed" (a TypeError)
reaches the caller unchanged while its callback conversion carries
NETWORK_ERROR and status 0. -/
theorem C7_witness :
    requestWithRetry gwCfg1 0 0 (initGatewayHealth gwCfg1.baseURLs) 0 0
        [.rejected (.native true "fetch failed")] =
      { result := some (.error (.native true "fetch failed")), events := [],
        health := initGatewayHealth gwCfg1.baseURLs, finalIndex := 0, consumed := 1 }
    ∧ (JsError.native true "fetch failed").isSDK = false
    ∧ (toCallbackSDKError (.native true "fetch failed")).code = "NETWORK_ERROR"
    ∧ (toCallbackSDKError (.native true "fetch failed")).httpStatus = 0
    ∧ (toCallbackSDKError (.native true "fetch failed")).message = "fetch failed" :=
  C7_theorem gwCfg1 0 0 (initGatewayHealth gwCfg1.baseURLs) [] 0 0 true
    "fetch failed" (by decide)

/-! ## Claim C2: gateway failover -/

theorem setHealth_cons (k : String) (w : Option Nat) (m : HMap) (url : String)
    (v : Option Nat) :
    setHealth ((k, w) :: m) url v =
      (if k = url then (k, v) else (k, w)) :: setHealth m url v := rfl

theorem hmLookup_cons (k : String) (v : Option Nat) (m : HMap) (url : String) :
    hmLookup ((k, v) :: m) url = if k = url then some v else hmLookup m url := rfl

theorem lookup_setHealth (m : HMap) (url url' : String) (v : Option Nat) :
    hmLookup (setHealth m url v) url' =
      if url' = url then (hmLookup m url').map (fun _ => v) else hmLookup m url' := by
  induction m with
  | nil => simp [setHealth, hmLookup]
  | cons p m ih =>
    obtain ⟨k, w⟩ := p
    rw [setHealth_cons]
    by_cases h2 : k = url
    · subst h2
      rw [if_pos rfl]
      by_cases h1 : k = url'
      · subst h1
        simp [hmLookup_cons]
      · simp [hmLookup_cons, h1, Ne.symm h1, ih]
    · rw [if_neg h2]
      by_cases h1 : k = url'
      · subst h1
        simp [hmLookup_cons, h2, Ne.symm h2]
      · simp [hmLookup_cons, h1, h2, ih]

theorem isGatewayHealthy_fst (now : Nat) (m : HMap) (url : String) :
    (isGatewayHealthy now m url).1 = healthyAtPure now m url := by
  unfold isGatewayHealthy healthyAtPure
  cases hl : hmLookup m url with
  | none => rfl
  | some w =>
    cases w with
    | none => rfl
    | some t =>
      by_cases hnt : now ≥ t <;> simp [hnt]

theorem healthyAtPure_heal (now : Nat) (m : HMap) (url url' : String) :
    healthyAtPure now (isGatewayHealthy now m url).2 url' = healthyAtPure now m url' := by
  unfold isGatewayHealthy
  cases hl : hmLookup m url with
  | none => rfl
  | some w =>
    cases w with
    | none => rfl
    | some t =>
      by_cases hnt : now ≥ t
      · simp only [ge_iff_le, hnt, ite_true]
        unfold healthyAtPure
        rw [lookup_setHealth]
        by_cases h1 : url' = url
        · subst h1
          rw [if_pos rfl, hl]
          simp [hnt]
        · rw [if_neg h1]
      · simp only [ge_iff_le, hnt, ite_false]

theorem markGatewayUnhealthy_lookup (cfg : HttpConfig) (now : Nat) (m : HMap)
    (url : String) (h0 : Option Nat) (h : hmLookup m url = some h0) :
    hmLookup (markGatewayUnhealthy cfg now m url) url
      = some (some (now + cfg.gatewayHealthCheckCooldownMs)) := by
  unfold markGatewayUnhealthy
  rw [h]
  rw [lookup_setHealth, if_pos rfl, h]
  rfl

theorem findNextAux_spec (urls : List String) (now idx : Nat) :
    ∀ (fuel attempts : Nat) (m : HMap) (j : Nat) (m' : HMap),
      findNextAux urls now idx m attempts fuel = (some j, m') →
      ∃ a, attempts ≤ a ∧ a < urls.length - 1 ∧ j = (idx + a + 1) % urls.length ∧
        healthyAtPure now m (urls.getD j "") = true ∧
        (∀ b, attempts ≤ b → b < a →
          healthyAtPure now m (urls.getD ((idx + b + 1) % urls.length) "") = false) := by
  intro fuel
  induction fuel with
  | zero =>
    intro attempts m j m' h
    simp [findNextAux] at h
  | succ f ih =>
    intro attempts m j m' h
    unfold findNextAux at h
    by_cases hlt : attempts < urls.length - 1
    · rw [if_pos hlt] at h
      by_cases hh : (isGatewayHealthy now m (urls.getD ((idx + attempts + 1) % urls.length) "")).1
      · rw [if_pos hh] at h
        obtain ⟨hj, _⟩ := Prod.mk.injEq _ _ _ _ ▸ h
        obtain rfl : (idx + attempts + 1) % urls.length = j := by
          simpa using congrArg Prod.fst h
        refine ⟨attempts, Nat.le_refl _, hlt, rfl, ?_, ?_⟩
        · rw [← isGatewayHealthy_fst]
          exact hh
        · intro b hb1 hb2
          omega
      · rw [if_neg hh] at h
        obtain ⟨a, ha1, ha2, ha3, ha4, ha5⟩ := ih (attempts + 1)
          (isGatewayHealthy now m (urls.getD ((idx + attempts + 1) % urls.length) "")).2
          j m' h
        refine ⟨a, by omega, ha2, ha3, ?_, ?_⟩
        · rwa [healthyAtPure_heal] at ha4
        · intro b hb1 hb2
          rcases Nat.eq_or_lt_of_le hb1 with hb | hb
          · subst hb
            rw [← isGatewayHealthy_fst]
            simpa using hh
          · have := ha5 b hb hb2
            rwa [healthyAtPure_heal] at this
    · rw [if_neg hlt] at h
      simp at h

theorem run_consumed_pos (cfg : HttpConfig) (now : Nat) :
    ∀ (trace : List FetchOutcome) (idx : Nat) (m : HMap) (attempt ga : Nat)
      (r : Except JsError String),
      (requestWithRetry cfg now idx m attempt ga trace).result = some r →
      1 ≤ (requestWithRetry cfg now idx m attempt ga trace).consumed := by
  intro trace
  induction trace with
  | nil =>
    intro idx m attempt ga r h
    simp [requestWithRetry] at h
  | cons o rest ih =>
    intro idx m attempt ga r h
    unfold requestWithRetry at h ⊢
    cases ho : outcomeResult o with
    | ok v => simp [ho]
    | error e =>
      simp only [ho] at h ⊢
      by_cases h1 : (isRetryableError e && decide (attempt < cfg.maxRetries)) = true
      · simp only [h1, if_true] at h ⊢
        omega
      · simp only [h1, Bool.false_eq_true, if_false] at h ⊢
        by_cases h2 : ((isNetworkError e || isRetryableError e)
            && decide (ga < cfg.baseURLs.length - 1)) = true
        · simp only [h2, if_true] at h ⊢
          cases hfr : (findNextHealthyGateway cfg.baseURLs now idx
              (markGatewayUnhealthy cfg now m (cfg.baseURLs.getD idx ""))).1 with
          | none => simp [hfr]
          | some j =>
            simp only [hfr] at h ⊢
            omega
        · simp [h2]

theorem run_last_error (cfg : HttpConfig) (now : Nat) :
    ∀ (tr : List FetchOutcome) (idx : Nat) (m : HMap) (attempt ga : Nat) (e : JsError),
      (requestWithRetry cfg now idx m attempt ga tr).result = some (.error e) →
      ∃ o, tr[(requestWithRetry cfg now idx m attempt ga tr).consumed - 1]? = some o
        ∧ outcomeResult o = .error e := by
  intro tr
  induction tr with
  | nil =>
    intro idx m attempt ga e h
    simp [requestWithRetry] at h
  | cons o rest ih =>
    intro idx m attempt ga e h
    unfold requestWithRetry at h ⊢
    cases ho : outcomeResult o with
    | ok v =>
      simp only [ho] at h
      simp at h
    | error e0 =>
      simp only [ho] at h ⊢
      by_cases h1 : (isRetryableError e0 && decide (attempt < cfg.maxRetries)) = true
      · simp only [h1, if_true] at h ⊢
        have hres : (requestWithRetry cfg now idx m (attempt + 1) ga rest).result
            = some (.error e) := h
        obtain ⟨o', ho1, ho2⟩ := ih idx m (attempt + 1) ga e hres
        have hpos := run_consumed_pos cfg now rest idx m (attempt + 1) ga _ hres
        refine ⟨o', ?_, ho2⟩
        obtain ⟨k, hk⟩ : ∃ k, (requestWithRetry cfg now idx m (attempt + 1) ga rest).consumed
            = k + 1 :=
          ⟨(requestWithRetry cfg now idx m (attempt + 1) ga rest).consumed - 1, by omega⟩
        rw [hk] at ho1 ⊢
        simpa using ho1
      · simp only [h1, Bool.false_eq_true, if_false] at h ⊢
        by_cases h2 : ((isNetworkError e0 || isRetryableError e0)
            && decide (ga < cfg.baseURLs.length - 1)) = true
        · simp only [h2, if_true] at h ⊢
          cases hfr : (findNextHealthyGateway cfg.baseURLs now idx
              (markGatewayUnhealthy cfg now m (cfg.baseURLs.getD idx ""))).1 with
          | none =>
            simp only [hfr] at h ⊢
            obtain rfl : e0 = e := by simpa using h
            exact ⟨o, by simp, ho⟩
          | some j =>
            simp only [hfr] at h ⊢
            have hres : (requestWithRetry cfg now j
                (findNextHealthyGateway cfg.baseURLs now idx
                  (markGatewayUnhealthy cfg now m (cfg.baseURLs.getD idx ""))).2
                0 (ga + 1) rest).result = some (.error e) := h
            obtain ⟨o', ho1, ho2⟩ := ih j _ 0 (ga + 1) e hres
            have hpos := run_consumed_pos cfg now rest j _ 0 (ga + 1) _ hres
            refine ⟨o', ?_, ho2⟩
            obtain ⟨k, hk⟩ : ∃ k, (requestWithRetry cfg now j
                (findNextHealthyGateway cfg.baseURLs now idx
                  (markGatewayUnhealthy cfg now m (cfg.baseURLs.getD idx ""))).2
                0 (ga + 1) rest).consumed = k + 1 :=
              ⟨(requestWithRetry cfg now j
                (findNextHealthyGateway cfg.baseURLs now idx
                  (markGatewayUnhealthy cfg now m (cfg.baseURLs.getD idx ""))).2
                0 (ga + 1) rest).consumed - 1, by omega⟩
            rw [hk] at ho1 ⊢
            simpa using ho1
        · simp only [h2, Bool.false_eq_true, if_false] at h ⊢
          obtain rfl : e0 = e := by simpa using h
          exact ⟨o, by simp, ho⟩

theorem failover_bound (cfg : HttpConfig) (now : Nat) :
    ∀ (trace : List FetchOutcome) (idx : Nat) (m : HMap) (attempt ga : Nat),
      countFailovers (requestWithRetry cfg now idx m attempt ga trace).events
        ≤ cfg.baseURLs.length - 1 - ga := by
  intro trace
  induction trace with
  | nil =>
    intro idx m attempt ga
    simp [requestWithRetry, countFailovers]
  | cons o rest ih =>
    intro idx m attempt ga
    unfold requestWithRetry
    cases ho : outcomeResult o with
    | ok v => simp [countFailovers]
    | error e =>
      by_cases h1 : (isRetryableError e && decide (attempt < cfg.maxRetries)) = true
      · simp only [h1, if_true]
        simpa [countFailovers] using ih idx m (attempt + 1) ga
      · simp only [h1, Bool.false_eq_true, if_false]
        by_cases h2 : ((isNetworkError e || isRetryableError e)
            && decide (ga < cfg.baseURLs.length - 1)) = true
        · simp only [h2, if_true]
          cases hfr : (findNextHealthyGateway cfg.baseURLs now idx
              (markGatewayUnhealthy cfg now m (cfg.baseURLs.getD idx ""))).1 with
          | none => simp [countFailovers]
          | some j =>
            simp only [hfr]
            have hga : ga < cfg.baseURLs.length - 1 := by
              simp only [Bool.and_eq_true, decide_eq_true_eq] at h2
              exact h2.2
            have hcnt := ih j (findNextHealthyGateway cfg.baseURLs now idx
              (markGatewayUnhealthy cfg now m (cfg.baseURLs.getD idx ""))).2 0 (ga + 1)
            simp only [countFailovers]
            omega
        · simp [h2, countFailovers]

/-- C2: when same-gateway retries are exhausted and the failure is
retryable-HTTP or network-level with failover budget left
(`gatewayAttempt < #gateways - 1`, i.e. more than one gateway), the
transport marks the current gateway unhealthy (`unhealthyUntil = now +
cooldown`), advances to the next healthy gateway — the first one after
the current index whose cooldown is not active, all gateways skipped on
the way being in cooldown — resets the attempt counter to 0 and repeats
the request; the number of failovers in any run is bounded by one pass
(`#gateways - 1`); and when every gateway is exhausted, the error raised
to the caller is exactly the error produced by the last fetch consumed —
unchanged, with no wrapping. -/
theorem C2_theorem (cfg : HttpConfig) (now : Nat) :
    (∀ (idx : Nat) (m : HMap) (o : FetchOutcome) (rest : List FetchOutcome)
       (attempt ga : Nat) (e : JsError) (j : Nat),
      outcomeResult o = .error e →
      ¬(isRetryableError e = true ∧ attempt < cfg.maxRetries) →
      (isNetworkError e || isRetryableError e) = true →
      ga < cfg.baseURLs.length - 1 →
      (findNextHealthyGateway cfg.baseURLs now idx
          (markGatewayUnhealthy cfg now m (cfg.baseURLs.getD idx ""))).1 = some j →
      requestWithRetry cfg now idx m attempt ga (o :: rest) =
        { result := (requestWithRetry cfg now j
              (findNextHealthyGateway cfg.baseURLs now idx
                (markGatewayUnhealthy cfg now m (cfg.baseURLs.getD idx ""))).2
              0 (ga + 1) rest).result
          events := .failover (cfg.baseURLs.getD idx "") (cfg.baseURLs.getD j "")
              cfg.retryDelayMs ::
            (requestWithRetry cfg now j
              (findNextHealthyGateway cfg.baseURLs now idx
                (markGatewayUnhealthy cfg now m (cfg.baseURLs.getD idx ""))).2
              0 (ga + 1) rest).events
          health := (requestWithRetry cfg now j
              (findNextHealthyGateway cfg.baseURLs now idx
                (markGatewayUnhealthy cfg now m (cfg.baseURLs.getD idx ""))).2
              0 (ga + 1) rest).health
          finalIndex := (requestWithRetry cfg now j
              (findNextHealthyGateway cfg.baseURLs now idx
                (markGatewayUnhealthy cfg now m (cfg.baseURLs.getD idx ""))).2
              0 (ga + 1) rest).finalIndex
          consumed := (requestWithRetry cfg now j
              (findNextHealthyGateway cfg.baseURLs now idx
                (markGatewayUnhealthy cfg now m (cfg.baseURLs.getD idx ""))).2
              0 (ga + 1) rest).consumed + 1 })
    ∧ (∀ (m : HMap) (url : String) (h0 : Option Nat), hmLookup m url = some h0 →
      hmLookup (markGatewayUnhealthy cfg now m url) url
        = some (some (now + cfg.gatewayHealthCheckCooldownMs)))
    ∧ (∀ (idx : Nat) (m : HMap) (j : Nat) (m' : HMap),
      findNextHealthyGateway cfg.baseURLs now idx m = (some j, m') →
      ∃ a, a < cfg.baseURLs.length - 1 ∧ j = (idx + a + 1) % cfg.baseURLs.length ∧
        healthyAtPure now m (cfg.baseURLs.getD j "") = true ∧
        ∀ b, b < a → healthyAtPure now m
          (cfg.baseURLs.getD ((idx + b + 1) % cfg.baseURLs.length) "") = false)
    ∧ (∀ (tr : List FetchOutcome) (idx : Nat) (m : HMap) (attempt ga : Nat),
      countFailovers (requestWithRetry cfg now idx m attempt ga tr).events
        ≤ cfg.baseURLs.length - 1 - ga)
    ∧ (∀ (tr : List FetchOutcome) (idx : Nat) (m : HMap) (attempt ga : Nat) (e : JsError),
      (requestWithRetry cfg now idx m attempt ga tr).result = some (.error e) →
      ∃ o, tr[(requestWithRetry cfg now idx m attempt ga tr).consumed - 1]? = some o
        ∧ outcomeResult o = .error e) := by
  refine ⟨?_, ?_, ?_, failover_bound cfg now, run_last_error cfg now⟩
  · intro idx m o rest attempt ga e j ho hnr hfo hga hj
    have hnr' : ¬((isRetryableError e && decide (attempt < cfg.maxRetries)) = true) := by
      intro hc
      exact hnr (by simpa using hc)
    have hfo' : ((isNetworkError e || isRetryableError e)
        && decide (ga < cfg.baseURLs.length - 1)) = true := by
      simp [hfo, hga]
    conv_lhs => rw [requestWithRetry]
    simp only [ho]
    rw [if_neg hnr', if_pos hfo']
    simp only [hj]
  · intro m url h0 h
    exact markGatewayUnhealthy_lookup cfg now m url h0 h
  · intro idx m j m' h
    unfold findNextHealthyGateway at h
    by_cases hlen : cfg.baseURLs.length ≤ 1
    · rw [if_pos hlen] at h
      simp at h
    · rw [if_neg hlen] at h
      obtain ⟨a, _, ha2, ha3, ha4, ha5⟩ :=
        findNextAux_spec cfg.baseURLs now idx cfg.baseURLs.length 0 m j m' h
      exact ⟨a, ha2, ha3, ha4, fun b hb => ha5 b (Nat.zero_le b) hb⟩

/-- Witness for C2: with gateways g1, g2, a 503 whose retries are
exhausted at attempt 3 fails over — g1 is marked unhealthy until
600000, g2 (healthy) is selected, the attempt counter restarts at 0 —
and the failover count of the full run is within one pass. -/
theorem C2_witness :
    requestWithRetry gwCfg2 0 0 (initGatewayHealth gwCfg2.baseURLs) 3 0
        [.resolved resp503, .resolved resp200] =
      { result := (requestWithRetry gwCfg2 0 1
            (findNextHealthyGateway gwCfg2.baseURLs 0 0
              (markGatewayUnhealthy gwCfg2 0 (initGatewayHealth gwCfg2.baseURLs)
                (gwCfg2.baseURLs.getD 0 ""))).2
            0 1 [.resolved resp200]).result
        events := .failover (gwCfg2.baseURLs.getD 0 "") (gwCfg2.baseURLs.getD 1 "")
            gwCfg2.retryDelayMs ::
          (requestWithRetry gwCfg2 0 1
            (findNextHealthyGateway gwCfg2.baseURLs 0 0
              (markGatewayUnhealthy gwCfg2 0 (initGatewayHealth gwCfg2.baseURLs)
                (gwCfg2.baseURLs.getD 0 ""))).2
            0 1 [.resolved resp200]).events
        health := (requestWithRetry gwCfg2 0 1
            (findNextHealthyGateway gwCfg2.baseURLs 0 0
              (markGatewayUnhealthy gwCfg2 0 (initGatewayHealth gwCfg2.baseURLs)
                (gwCfg2.baseURLs.getD 0 ""))).2
            0 1 [.resolved resp200]).health
        finalIndex := (requestWithRetry gwCfg2 0 1
            (findNextHealthyGateway gwCfg2.baseURLs 0 0
              (markGatewayUnhealthy gwCfg2 0 (initGatewayHealth gwCfg2.baseURLs)
                (gwCfg2.baseURLs.getD 0 ""))).2
            0 1 [.resolved resp200]).finalIndex
        consumed := (requestWithRetry gwCfg2 0 1
            (findNextHealthyGateway gwCfg2.baseURLs 0 0
              (markGatewayUnhealthy gwCfg2 0 (initGatewayHealth gwCfg2.baseURLs)
                (gwCfg2.baseURLs.getD 0 ""))).2
            0 1 [.resolved resp200]).consumed + 1 }
    ∧ hmLookup (markGatewayUnhealthy gwCfg2 0 (initGatewayHealth gwCfg2.baseURLs) "http://g1")
        "http://g1" = some (some (0 + gwCfg2.gatewayHealthCheckCooldownMs))
    ∧ countFailovers (requestWithRetry gwCfg2 0 0 (initGatewayHealth gwCfg2.baseURLs) 3 0
        [.resolved resp503, .resolved resp200]).events ≤ gwCfg2.baseURLs.length - 1 - 0 :=
  ⟨(C2_theorem gwCfg2 0).1 0 (initGatewayHealth gwCfg2.baseURLs) (.resolved resp503)
      [.resolved resp200] 3 0
      (.sdk (SDKError.fromResponse 503 { error := some "overloaded", code := some "BUSY" }))
      1 (by decide) (by decide) (by decide) (by decide) (by decide),
   (C2_theorem gwCfg2 0).2.1 (initGatewayHealth gwCfg2.baseURLs) "http://g1" none (by decide),
   (C2_theorem gwCfg2 0).2.2.2.1 [.resolved resp503, .resolved resp200] 0
     (initGatewayHealth gwCfg2.baseURLs) 3 0⟩

end NetworkSDK
